import Mathlib

/-!
Verification development for the simracer_scraper crawl-coordination engine.

The definitions below are a shallow embedding of the Python sources:

* `Database.*`        embeds `src/database.py` (SQLite store: row types per the
                      `CREATE TABLE` statements of `initialize_schema`, the
                      `upsert_*` / `get_*` methods, `is_race_complete`,
                      `is_url_cached`, `should_scrape`, `log_scrape`);
* `Orchestrator.*`    embeds `src/orchestrator.py` (`scrape_league`,
                      `scrape_series`, `scrape_season`, `scrape_race`,
                      `_store_race_result`, `_parse_driver_name`,
                      `_build_race_data`, `_parse_int`, `_yn_to_bool`);
* `FetchGate.*`       embeds the retry loop of
                      `src/extractors/base.py::_fetch_static` /
                      `_fetch_with_browser`.

Modelling conventions, used throughout:

* SQLite `INTEGER` columns are `Nat` (ids) or `Int` (signed values);
  `TEXT` is `String`; nullable columns are `Option _`; `REAL` columns
  (`track_length`, `safety_rating`, `average_running_position`) carry their
  raw string form, since no verified property depends on float arithmetic.
* Python `dict.get(k)` on an attribute dictionary is an `Option` field;
  an omitted key is `none`.
* Python truthiness tests (`if not name`) are `pyTruthyStr` / `pyTruthyNat`.
* Timestamps are ISO-8601 strings exactly as the program writes them;
  `parseTimestamp` models `datetime.fromisoformat` on those shapes
  (date `YYYY-MM-DD`, optional `T` or space separator, `HH:MM[:SS[.ffffff]]`,
  fractional seconds truncated) returning epoch seconds.  `datetime.now()`
  is an explicit `now : Int` (epoch seconds) parameter, and the string the
  orchestrator writes for `scraped_at` is an explicit `nowIso : String`
  parameter denoting the same instant.  `CURRENT_TIMESTAMP` defaults for
  `created_at` / `updated_at` use the same `now` tick.
* `sqlite3` errors (`ValueError` raised by the Python validation code,
  `sqlite3.IntegrityError`, `sqlite3.OperationalError`) are the `SqlError`
  sum type; fallible methods return `Except SqlError _`.
* The connection-level `sqlite3_last_insert_rowid` value (what
  `cursor.lastrowid` reports after an `INSERT` statement) is the
  `lastInsertRowid` field of `DB`: it is set by every statement that really
  inserts a row and left unchanged when an `INSERT .. ON CONFLICT .. DO
  UPDATE` takes the update branch.
-/

/-- Python truthiness of an optional string (`if not s`): a missing value and
the empty string are falsy. -/
def pyTruthyStr (s : Option String) : Bool :=
  match s with
  | none => false
  | some v => v ≠ ""

/-- Python truthiness of an optional integer (`if not n`): a missing value and
`0` are falsy. -/
def pyTruthyNat (n : Option Nat) : Bool :=
  match n with
  | none => false
  | some v => v ≠ 0

/-- Substring test (`year_str in season_name`), via list infixes. -/
def strContainsSub (hay needle : String) : Bool :=
  decide (needle.toList <:+: hay.toList)

/-- Split a character list on every occurrence of `sep` (the pieces do not
contain `sep`; used to model `str.split(sep)` without the non-structural
core string functions, so that concrete runs reduce inside the kernel). -/
def splitChars (sep : Char) (cs : List Char) : List (List Char) :=
  match cs with
  | [] => [[]]
  | c :: rest =>
    let groups := splitChars sep rest
    if c = sep then [] :: groups
    else
      match groups with
      | [] => [[c]]
      | g :: gs => (c :: g) :: gs

/-- Model of `str.strip()`: drop leading and trailing whitespace. -/
def charsTrim (cs : List Char) : List Char :=
  ((cs.dropWhile Char.isWhitespace).reverse.dropWhile Char.isWhitespace).reverse

/-- Split a character list on whitespace runs, dropping empty pieces
(model of argumentless `str.split()`). -/
def splitOnWhite (cs : List Char) : List (List Char) :=
  (splitChars ' ' (cs.map fun c => if c.isWhitespace then ' ' else c)).filter
    (fun g => ¬ g.isEmpty)

/-- Parse a run of ASCII digits (no sign); `none` if empty or non-digit. -/
def parseNatDigits (cs : List Char) : Option Nat :=
  if cs.isEmpty then none
  else if cs.all (·.isDigit) then
    some (cs.foldl (fun acc c => acc * 10 + (c.toNat - 48)) 0)
  else none

/-- Days in a month of the (proleptic Gregorian) calendar. -/
def daysInMonth (y m : Nat) : Nat :=
  if m = 2 then
    if y % 4 = 0 ∧ (y % 100 ≠ 0 ∨ y % 400 = 0) then 29 else 28
  else if m = 4 ∨ m = 6 ∨ m = 9 ∨ m = 11 then 30
  else 31

/-- Days between 1970-01-01 and the given civil date (Hinnant's civil-date
formula; exact for the dates the scraper stores, all of which are ≥ 1970). -/
def daysFromCivil (y m d : Nat) : Int :=
  let yi : Int := if m ≤ 2 then (y : Int) - 1 else (y : Int)
  let era : Int := yi / 400
  let yoe : Int := yi - era * 400
  let mp : Int := ((m : Int) + 9) % 12
  let doy : Int := (153 * mp + 2) / 5 + (d : Int) - 1
  let doe : Int := yoe * 365 + yoe / 4 - yoe / 100 + doy
  era * 146097 + doe - 719468

/-- Parse `YYYY-MM-DD` (zero-padded, as `fromisoformat` requires). -/
def parseDate (cs : List Char) : Option (Nat × Nat × Nat) :=
  match splitChars '-' cs with
  | [ys, ms, ds] =>
    if ys.length = 4 ∧ ms.length = 2 ∧ ds.length = 2 then
      match parseNatDigits ys, parseNatDigits ms, parseNatDigits ds with
      | some y, some m, some d =>
        if 1 ≤ m ∧ m ≤ 12 ∧ 1 ≤ d ∧ d ≤ daysInMonth y m then some (y, m, d)
        else none
      | _, _, _ => none
    else none
  | _ => none

/-- Parse `HH:MM`, `HH:MM:SS` or `HH:MM:SS.ffffff` to seconds within the day
(fractional seconds truncated: sub-second precision is irrelevant to every
freshness comparison, which is at hour or day granularity). -/
def parseTimeOfDay (cs : List Char) : Option Nat :=
  let core := cs.takeWhile (· ≠ '.')
  let toSecs := fun (hs ms ss : List Char) (secs : Nat) =>
    if hs.length = 2 ∧ ms.length = 2 ∧ (ss.isEmpty ∨ ss.length = 2) then
      match parseNatDigits hs, parseNatDigits ms with
      | some h, some mi =>
        if h ≤ 23 ∧ mi ≤ 59 ∧ secs ≤ 59 then some (h * 3600 + mi * 60 + secs)
        else none
      | _, _ => none
    else none
  match splitChars ':' core with
  | [hs, ms] => toSecs hs ms [] 0
  | [hs, ms, ss] =>
    match parseNatDigits ss with
    | some secs => toSecs hs ms ss secs
    | none => none
  | _ => none

/-- Model of `datetime.fromisoformat` on the timestamp strings this program
writes and stores, returning epoch seconds; `none` models `ValueError`
(which every caller treats as a stale / invalid timestamp). -/
def parseTimestamp (s : String) : Option Int :=
  let cs := s.toList
  if cs.length = 10 then
    (parseDate cs).map (fun yd =>
      match yd with
      | (y, m, d) => daysFromCivil y m d * 86400)
  else
    match cs.get? 10 with
    | some c =>
      if c = 'T' ∨ c = ' ' then
        match parseDate (cs.take 10), parseTimeOfDay (cs.drop 11) with
        | some (y, m, d), some t => some (daysFromCivil y m d * 86400 + (t : Int))
        | _, _ => none
      else none
    | none => none

namespace Database

/-- Errors raised by `database.py`: `ValueError` from its own validation,
`sqlite3.IntegrityError` (foreign keys, unique constraints),
`sqlite3.OperationalError` (malformed SQL, e.g. selecting a column the
schema does not have). -/
inductive SqlError where
  | valueError (msg : String)
  | integrityError (msg : String)
  | operationalError (msg : String)
deriving Repr, DecidableEq

/-- Row of table `leagues` (`initialize_schema`). -/
structure LeagueRow where
  league_id : Nat
  name : String
  description : Option String := none
  url : String
  scraped_at : String
  created_at : Int := 0
  updated_at : Int := 0
deriving Repr, DecidableEq

/-- Row of table `teams`. -/
structure TeamRow where
  team_id : Nat
  league_id : Nat
  name : String
  driver_count : Option Nat := none
  url : Option String := none
  scraped_at : String
  created_at : Int := 0
  updated_at : Int := 0
deriving Repr, DecidableEq

/-- Row of table `drivers`.  `safety_rating` is a `REAL` column, carried as
its raw string form. -/
structure DriverRow where
  driver_id : Nat
  league_id : Nat
  team_id : Option Nat := none
  name : String
  first_name : Option String := none
  last_name : Option String := none
  car_numbers : Option String := none
  primary_number : Option String := none
  club : Option String := none
  club_id : Option Nat := none
  irating : Option Int := none
  safety_rating : Option String := none
  license_class : Option String := none
  url : String
  scraped_at : String
  created_at : Int := 0
  updated_at : Int := 0
deriving Repr, DecidableEq

/-- Row of table `series`. -/
structure SeriesRow where
  series_id : Nat
  league_id : Nat
  name : String
  description : Option String := none
  created_date : Option String := none
  num_seasons : Option Nat := none
  url : String
  scraped_at : String
  created_at : Int := 0
  updated_at : Int := 0
deriving Repr, DecidableEq

/-- Row of table `seasons`. -/
structure SeasonRow where
  season_id : Nat
  series_id : Nat
  name : String
  description : Option String := none
  url : String
  scraped_at : String
  created_at : Int := 0
  updated_at : Int := 0
deriving Repr, DecidableEq

/-- Row of table `races` (`race_id` is the `AUTOINCREMENT` surrogate key;
`schedule_id` is the external unique key).  `track_length` is a `REAL`
column, carried as its raw string form. -/
structure RaceRow where
  race_id : Nat
  schedule_id : Nat
  season_id : Nat
  race_number : Int
  event_name : Option String := none
  date : Option String := none
  race_time : Option String := none
  practice_time : Option String := none
  track_id : Option Int := none
  track_config_id : Option Int := none
  track_name : Option String := none
  track_type : Option String := none
  track_length : Option String := none
  track_config_iracing_id : Option String := none
  planned_laps : Option Int := none
  points_race : Option Bool := none
  off_week : Option Bool := none
  night_race : Option Bool := none
  playoff_race : Option Bool := none
  race_duration_minutes : Option Int := none
  total_laps : Option Int := none
  leaders : Option Int := none
  lead_changes : Option Int := none
  cautions : Option Int := none
  caution_laps : Option Int := none
  num_drivers : Option Int := none
  weather_type : Option String := none
  cloud_conditions : Option String := none
  temperature_f : Option Int := none
  humidity_pct : Option Int := none
  fog_pct : Option Int := none
  weather_wind_speed : Option String := none
  weather_wind_dir : Option String := none
  weather_wind_unit : Option String := none
  url : String
  is_complete : Bool := false
  scraped_at : String
  created_at : Int := 0
  updated_at : Int := 0
deriving Repr, DecidableEq

/-- Row of table `race_results` (`result_id` is `AUTOINCREMENT`; unique on
`(race_id, driver_id)`).  `average_running_position` is a `REAL` column,
carried as its raw string form. -/
structure ResultRow where
  result_id : Nat
  race_id : Nat
  driver_id : Nat
  team : Option String := none
  finish_position : Option Int := none
  starting_position : Option Int := none
  car_number : Option String := none
  qualifying_time : Option String := none
  fastest_lap : Option String := none
  fastest_lap_number : Option Int := none
  average_lap : Option String := none
  interval : Option String := none
  laps_completed : Option Int := none
  laps_led : Option Int := none
  incident_points : Option Int := none
  race_points : Option Int := none
  bonus_points : Option Int := none
  penalty_points : Option Int := none
  total_points : Option Int := none
  fast_laps : Option Int := none
  quality_passes : Option Int := none
  closing_passes : Option Int := none
  total_passes : Option Int := none
  average_running_position : Option String := none
  irating : Option Int := none
  status : Option String := none
  car_id : Option Int := none
  created_at : Int := 0
  updated_at : Int := 0
deriving Repr, DecidableEq

/-- Row of table `scrape_log`. -/
structure LogRow where
  log_id : Nat
  entity_type : String
  entity_id : Option Nat := none
  entity_url : String
  status : String
  error_message : Option String := none
  duration_ms : Option Nat := none
  timestamp : Int := 0
deriving Repr, DecidableEq

/-- Row of table `schema_alerts`. -/
structure AlertRow where
  alert_id : Nat
  entity_type : String
  alert_type : String
  details : String
  url : Option String := none
  resolved : Bool := false
  timestamp : Int := 0
deriving Repr, DecidableEq

/-- The connected database: one list per table created by
`initialize_schema`, the `AUTOINCREMENT` counters of the three surrogate-key
tables, and the connection-level `sqlite3_last_insert_rowid` value. -/
structure DB where
  leagues : List LeagueRow := []
  teams : List TeamRow := []
  drivers : List DriverRow := []
  series : List SeriesRow := []
  seasons : List SeasonRow := []
  races : List RaceRow := []
  raceResults : List ResultRow := []
  scrapeLog : List LogRow := []
  schemaAlerts : List AlertRow := []
  nextRaceId : Nat := 1
  nextResultId : Nat := 1
  nextLogId : Nat := 1
  lastInsertRowid : Nat := 0
deriving Repr, DecidableEq

/-- A fresh connection with the schema created and nothing stored. -/
def DB.empty : DB := {}

/-- The `data` dictionary accepted by `upsert_league` (absent key = `none`).
`organizer` appears at one call site of the orchestrator but is read by no
code in `upsert_league`; it is kept here, unread, for fidelity. -/
structure LeagueData where
  name : Option String := none
  url : Option String := none
  scraped_at : Option String := none
  description : Option String := none
  organizer : Option String := none
deriving Repr, DecidableEq

/-- The `data` dictionary accepted by `upsert_series`. -/
structure SeriesData where
  name : Option String := none
  url : Option String := none
  scraped_at : Option String := none
  description : Option String := none
  created_date : Option String := none
  num_seasons : Option Nat := none
deriving Repr, DecidableEq

/-- The `data` dictionary accepted by `upsert_season`. -/
structure SeasonData where
  name : Option String := none
  url : Option String := none
  scraped_at : Option String := none
  description : Option String := none
deriving Repr, DecidableEq

/-- The `data` dictionary accepted by `upsert_team`. -/
structure TeamData where
  name : Option String := none
  scraped_at : Option String := none
  url : Option String := none
  driver_count : Option Nat := none
deriving Repr, DecidableEq

/-- The `data` dictionary accepted by `upsert_driver`. -/
structure DriverData where
  name : Option String := none
  url : Option String := none
  scraped_at : Option String := none
  team_id : Option Nat := none
  first_name : Option String := none
  last_name : Option String := none
  car_numbers : Option String := none
  primary_number : Option String := none
  club : Option String := none
  club_id : Option Nat := none
  irating : Option Int := none
  safety_rating : Option String := none
  license_class : Option String := none
deriving Repr, DecidableEq

/-- The `data` dictionary accepted by `upsert_race`. -/
structure RaceData where
  url : Option String := none
  scraped_at : Option String := none
  race_number : Option Int := none
  event_name : Option String := none
  date : Option String := none
  race_time : Option String := none
  practice_time : Option String := none
  track_id : Option Int := none
  track_config_id : Option Int := none
  track_name : Option String := none
  track_type : Option String := none
  track_length : Option String := none
  track_config_iracing_id : Option String := none
  planned_laps : Option Int := none
  points_race : Option Bool := none
  off_week : Option Bool := none
  night_race : Option Bool := none
  playoff_race : Option Bool := none
  race_duration_minutes : Option Int := none
  total_laps : Option Int := none
  leaders : Option Int := none
  lead_changes : Option Int := none
  cautions : Option Int := none
  caution_laps : Option Int := none
  num_drivers : Option Int := none
  weather_type : Option String := none
  cloud_conditions : Option String := none
  temperature_f : Option Int := none
  humidity_pct : Option Int := none
  fog_pct : Option Int := none
  weather_wind_speed : Option String := none
  weather_wind_dir : Option String := none
  weather_wind_unit : Option String := none
  is_complete : Option Bool := none
deriving Repr, DecidableEq

/-- The `data` dictionary accepted by `upsert_race_result` (every field
optional, as in the source). -/
structure ResultData where
  team : Option String := none
  finish_position : Option Int := none
  starting_position : Option Int := none
  car_number : Option String := none
  qualifying_time : Option String := none
  fastest_lap : Option String := none
  fastest_lap_number : Option Int := none
  average_lap : Option String := none
  interval : Option String := none
  laps_completed : Option Int := none
  laps_led : Option Int := none
  incident_points : Option Int := none
  race_points : Option Int := none
  bonus_points : Option Int := none
  penalty_points : Option Int := none
  total_points : Option Int := none
  fast_laps : Option Int := none
  quality_passes : Option Int := none
  closing_passes : Option Int := none
  total_passes : Option Int := none
  average_running_position : Option String := none
  irating : Option Int := none
  status : Option String := none
  car_id : Option Int := none
deriving Repr, DecidableEq

/-- Database.upsert_league: validate required fields, then
`INSERT .. ON CONFLICT(league_id) DO UPDATE SET ..` (every column set from
the excluded values), commit, `return league_id`. -/
def upsert_league (db : DB) (league_id : Nat) (data : LeagueData) (now : Int) :
    Except SqlError (DB × Nat) :=
  if ¬ (pyTruthyStr data.name ∧ pyTruthyStr data.url ∧ pyTruthyStr data.scraped_at) then
    .error (.valueError "name, url, and scraped_at are required fields")
  else
    let name := data.name.getD ""
    let url := data.url.getD ""
    let scrapedAt := data.scraped_at.getD ""
    match db.leagues.find? (·.league_id == league_id) with
    | some _ =>
      if db.leagues.any (fun r => r.league_id ≠ league_id ∧ r.url = url) then
        .error (.integrityError "UNIQUE constraint failed: leagues.url")
      else
        let rows := db.leagues.map fun r =>
          if r.league_id == league_id then
            { r with name := name, url := url, description := data.description,
                     scraped_at := scrapedAt, updated_at := now }
          else r
        .ok ({ db with leagues := rows }, league_id)
    | none =>
      if db.leagues.any (fun r => r.url = url) then
        .error (.integrityError "UNIQUE constraint failed: leagues.url")
      else
        let row : LeagueRow :=
          { league_id := league_id, name := name, description := data.description,
            url := url, scraped_at := scrapedAt, created_at := now, updated_at := now }
        .ok ({ db with leagues := db.leagues ++ [row], lastInsertRowid := league_id },
             league_id)

/-- Database.get_league: `SELECT * FROM leagues WHERE league_id = ?`. -/
def get_league (db : DB) (league_id : Nat) : Option LeagueRow :=
  db.leagues.find? (·.league_id == league_id)

/-- Database.upsert_series: validate, check the league foreign key, then
insert-or-replace every column from the excluded values; `return series_id`. -/
def upsert_series (db : DB) (series_id league_id : Nat) (data : SeriesData) (now : Int) :
    Except SqlError (DB × Nat) :=
  if ¬ (pyTruthyStr data.name ∧ pyTruthyStr data.url ∧ pyTruthyStr data.scraped_at) then
    .error (.valueError "name, url, and scraped_at are required fields")
  else
    let name := data.name.getD ""
    let url := data.url.getD ""
    let scrapedAt := data.scraped_at.getD ""
    if ¬ db.leagues.any (·.league_id == league_id) then
      .error (.integrityError "FOREIGN KEY constraint failed")
    else
      match db.series.find? (·.series_id == series_id) with
      | some _ =>
        if db.series.any (fun r => r.series_id ≠ series_id ∧ r.url = url) then
          .error (.integrityError "UNIQUE constraint failed: series.url")
        else
          let rows := db.series.map fun r =>
            if r.series_id == series_id then
              { r with league_id := league_id, name := name, url := url,
                       description := data.description, created_date := data.created_date,
                       num_seasons := data.num_seasons, scraped_at := scrapedAt,
                       updated_at := now }
            else r
          .ok ({ db with series := rows }, series_id)
      | none =>
        if db.series.any (fun r => r.url = url) then
          .error (.integrityError "UNIQUE constraint failed: series.url")
        else
          let row : SeriesRow :=
            { series_id := series_id, league_id := league_id, name := name,
              description := data.description, created_date := data.created_date,
              num_seasons := data.num_seasons, url := url, scraped_at := scrapedAt,
              created_at := now, updated_at := now }
          .ok ({ db with series := db.series ++ [row], lastInsertRowid := series_id },
               series_id)

/-- Database.get_series. -/
def get_series (db : DB) (series_id : Nat) : Option SeriesRow :=
  db.series.find? (·.series_id == series_id)

/-- Database.upsert_season. -/
def upsert_season (db : DB) (season_id series_id : Nat) (data : SeasonData) (now : Int) :
    Except SqlError (DB × Nat) :=
  if ¬ (pyTruthyStr data.name ∧ pyTruthyStr data.url ∧ pyTruthyStr data.scraped_at) then
    .error (.valueError "name, url, and scraped_at are required fields")
  else
    let name := data.name.getD ""
    let url := data.url.getD ""
    let scrapedAt := data.scraped_at.getD ""
    if ¬ db.series.any (·.series_id == series_id) then
      .error (.integrityError "FOREIGN KEY constraint failed")
    else
      match db.seasons.find? (·.season_id == season_id) with
      | some _ =>
        if db.seasons.any (fun r => r.season_id ≠ season_id ∧ r.url = url) then
          .error (.integrityError "UNIQUE constraint failed: seasons.url")
        else
          let rows := db.seasons.map fun r =>
            if r.season_id == season_id then
              { r with series_id := series_id, name := name,
                       description := data.description, url := url,
                       scraped_at := scrapedAt, updated_at := now }
            else r
          .ok ({ db with seasons := rows }, season_id)
      | none =>
        if db.seasons.any (fun r => r.url = url) then
          .error (.integrityError "UNIQUE constraint failed: seasons.url")
        else
          let row : SeasonRow :=
            { season_id := season_id, series_id := series_id, name := name,
              description := data.description, url := url, scraped_at := scrapedAt,
              created_at := now, updated_at := now }
          .ok ({ db with seasons := db.seasons ++ [row], lastInsertRowid := season_id },
               season_id)

/-- Database.get_season. -/
def get_season (db : DB) (season_id : Nat) : Option SeasonRow :=
  db.seasons.find? (·.season_id == season_id)

/-- Database.upsert_team: only `name` and `scraped_at` are required here
(`url` is optional for teams). -/
def upsert_team (db : DB) (team_id league_id : Nat) (data : TeamData) (now : Int) :
    Except SqlError (DB × Nat) :=
  if ¬ (pyTruthyStr data.name ∧ pyTruthyStr data.scraped_at) then
    .error (.valueError "name and scraped_at are required fields")
  else
    let name := data.name.getD ""
    let scrapedAt := data.scraped_at.getD ""
    if ¬ db.leagues.any (·.league_id == league_id) then
      .error (.integrityError "FOREIGN KEY constraint failed")
    else
      match db.teams.find? (·.team_id == team_id) with
      | some _ =>
        let rows := db.teams.map fun r =>
          if r.team_id == team_id then
            { r with league_id := league_id, name := name,
                     driver_count := data.driver_count, url := data.url,
                     scraped_at := scrapedAt, updated_at := now }
          else r
        .ok ({ db with teams := rows }, team_id)
      | none =>
        let row : TeamRow :=
          { team_id := team_id, league_id := league_id, name := name,
            driver_count := data.driver_count, url := data.url,
            scraped_at := scrapedAt, created_at := now, updated_at := now }
        .ok ({ db with teams := db.teams ++ [row], lastInsertRowid := team_id }, team_id)

/-- Database.get_team. -/
def get_team (db : DB) (team_id : Nat) : Option TeamRow :=
  db.teams.find? (·.team_id == team_id)

/-- Database.upsert_driver. -/
def upsert_driver (db : DB) (driver_id league_id : Nat) (data : DriverData) (now : Int) :
    Except SqlError (DB × Nat) :=
  if ¬ (pyTruthyStr data.name ∧ pyTruthyStr data.url ∧ pyTruthyStr data.scraped_at) then
    .error (.valueError "name, url, and scraped_at are required fields")
  else
    let name := data.name.getD ""
    let url := data.url.getD ""
    let scrapedAt := data.scraped_at.getD ""
    if ¬ db.leagues.any (·.league_id == league_id) then
      .error (.integrityError "FOREIGN KEY constraint failed")
    else if data.team_id.any (fun t => ¬ db.teams.any (·.team_id == t)) then
      .error (.integrityError "FOREIGN KEY constraint failed")
    else
      match db.drivers.find? (·.driver_id == driver_id) with
      | some _ =>
        if db.drivers.any (fun r => r.driver_id ≠ driver_id ∧ r.url = url) then
          .error (.integrityError "UNIQUE constraint failed: drivers.url")
        else
          let rows := db.drivers.map fun r =>
            if r.driver_id == driver_id then
              { r with league_id := league_id, team_id := data.team_id, name := name,
                       first_name := data.first_name, last_name := data.last_name,
                       car_numbers := data.car_numbers,
                       primary_number := data.primary_number, club := data.club,
                       club_id := data.club_id, irating := data.irating,
                       safety_rating := data.safety_rating,
                       license_class := data.license_class, url := url,
                       scraped_at := scrapedAt, updated_at := now }
            else r
          .ok ({ db with drivers := rows }, driver_id)
      | none =>
        if db.drivers.any (fun r => r.url = url) then
          .error (.integrityError "UNIQUE constraint failed: drivers.url")
        else
          let row : DriverRow :=
            { driver_id := driver_id, league_id := league_id, team_id := data.team_id,
              name := name, first_name := data.first_name, last_name := data.last_name,
              car_numbers := data.car_numbers, primary_number := data.primary_number,
              club := data.club, club_id := data.club_id, irating := data.irating,
              safety_rating := data.safety_rating, license_class := data.license_class,
              url := url, scraped_at := scrapedAt, created_at := now, updated_at := now }
          .ok ({ db with drivers := db.drivers ++ [row], lastInsertRowid := driver_id },
               driver_id)

/-- Database.get_driver. -/
def get_driver (db : DB) (driver_id : Nat) : Option DriverRow :=
  db.drivers.find? (·.driver_id == driver_id)

/-- Database.upsert_race: required `url`, `scraped_at` (truthy) and
`race_number` (an `is None` test, so `0` is allowed); conflict key is
`schedule_id`; the update branch sets every column from the excluded values
and does not touch the surrogate `race_id`.  The method ends with
`return cursor.lastrowid`: on a real insert that is the fresh `race_id`, but
when the `DO UPDATE` branch fires SQLite does not change
`last_insert_rowid`, so the stale connection-level value is returned. -/
def upsert_race (db : DB) (schedule_id season_id : Nat) (data : RaceData) (now : Int) :
    Except SqlError (DB × Nat) :=
  if ¬ (pyTruthyStr data.url ∧ pyTruthyStr data.scraped_at) ∨ data.race_number = none then
    .error (.valueError "url, scraped_at, and race_number are required fields")
  else
    let url := data.url.getD ""
    let scrapedAt := data.scraped_at.getD ""
    let raceNumber := data.race_number.getD 0
    let isComplete := data.is_complete.getD false
    if ¬ db.seasons.any (·.season_id == season_id) then
      .error (.integrityError "FOREIGN KEY constraint failed")
    else
      match db.races.find? (·.schedule_id == schedule_id) with
      | some _ =>
        if db.races.any (fun r => r.schedule_id ≠ schedule_id ∧ r.url = url) then
          .error (.integrityError "UNIQUE constraint failed: races.url")
        else
          let rows := db.races.map fun r =>
            if r.schedule_id == schedule_id then
              { r with season_id := season_id, race_number := raceNumber,
                       event_name := data.event_name, date := data.date,
                       race_time := data.race_time, practice_time := data.practice_time,
                       track_id := data.track_id, track_config_id := data.track_config_id,
                       track_name := data.track_name, track_type := data.track_type,
                       track_length := data.track_length,
                       track_config_iracing_id := data.track_config_iracing_id,
                       planned_laps := data.planned_laps, points_race := data.points_race,
                       off_week := data.off_week, night_race := data.night_race,
                       playoff_race := data.playoff_race,
                       race_duration_minutes := data.race_duration_minutes,
                       total_laps := data.total_laps, leaders := data.leaders,
                       lead_changes := data.lead_changes, cautions := data.cautions,
                       caution_laps := data.caution_laps, num_drivers := data.num_drivers,
                       weather_type := data.weather_type,
                       cloud_conditions := data.cloud_conditions,
                       temperature_f := data.temperature_f,
                       humidity_pct := data.humidity_pct, fog_pct := data.fog_pct,
                       weather_wind_speed := data.weather_wind_speed,
                       weather_wind_dir := data.weather_wind_dir,
                       weather_wind_unit := data.weather_wind_unit, url := url,
                       is_complete := isComplete, scraped_at := scrapedAt,
                       updated_at := now }
            else r
          .ok ({ db with races := rows }, db.lastInsertRowid)
      | none =>
        if db.races.any (fun r => r.url = url) then
          .error (.integrityError "UNIQUE constraint failed: races.url")
        else
          let rid := db.nextRaceId
          let row : RaceRow :=
            { race_id := rid, schedule_id := schedule_id, season_id := season_id,
              race_number := raceNumber, event_name := data.event_name,
              date := data.date, race_time := data.race_time,
              practice_time := data.practice_time, track_id := data.track_id,
              track_config_id := data.track_config_id, track_name := data.track_name,
              track_type := data.track_type, track_length := data.track_length,
              track_config_iracing_id := data.track_config_iracing_id,
              planned_laps := data.planned_laps, points_race := data.points_race,
              off_week := data.off_week, night_race := data.night_race,
              playoff_race := data.playoff_race,
              race_duration_minutes := data.race_duration_minutes,
              total_laps := data.total_laps, leaders := data.leaders,
              lead_changes := data.lead_changes, cautions := data.cautions,
              caution_laps := data.caution_laps, num_drivers := data.num_drivers,
              weather_type := data.weather_type,
              cloud_conditions := data.cloud_conditions,
              temperature_f := data.temperature_f, humidity_pct := data.humidity_pct,
              fog_pct := data.fog_pct, weather_wind_speed := data.weather_wind_speed,
              weather_wind_dir := data.weather_wind_dir,
              weather_wind_unit := data.weather_wind_unit, url := url,
              is_complete := isComplete, scraped_at := scrapedAt,
              created_at := now, updated_at := now }
          let db' := { db with races := db.races ++ [row], nextRaceId := rid + 1,
                               lastInsertRowid := rid }
          .ok (db', db'.lastInsertRowid)

/-- Database.get_race: `SELECT * FROM races WHERE schedule_id = ?`. -/
def get_race (db : DB) (schedule_id : Nat) : Option RaceRow :=
  db.races.find? (·.schedule_id == schedule_id)

/-- Database.is_race_complete: true iff the race row exists and
`is_complete` is set. -/
def is_race_complete (db : DB) (schedule_id : Nat) : Bool :=
  match get_race db schedule_id with
  | some row => row.is_complete
  | none => false

/-- Database.upsert_race_result: conflict key `(race_id, driver_id)`; like
`upsert_race` it ends with `return cursor.lastrowid`, whose value is stale
when the update branch fires. -/
def upsert_race_result (db : DB) (race_id driver_id : Nat) (data : ResultData)
    (now : Int) : Except SqlError (DB × Nat) :=
  if ¬ db.races.any (·.race_id == race_id) then
    .error (.integrityError "FOREIGN KEY constraint failed")
  else if ¬ db.drivers.any (·.driver_id == driver_id) then
    .error (.integrityError "FOREIGN KEY constraint failed")
  else
    match db.raceResults.find? (fun r => r.race_id == race_id ∧ r.driver_id == driver_id) with
    | some _ =>
      let rows := db.raceResults.map fun r =>
        if r.race_id == race_id ∧ r.driver_id == driver_id then
          { r with team := data.team, finish_position := data.finish_position,
                   starting_position := data.starting_position,
                   car_number := data.car_number,
                   qualifying_time := data.qualifying_time,
                   fastest_lap := data.fastest_lap,
                   fastest_lap_number := data.fastest_lap_number,
                   average_lap := data.average_lap, interval := data.interval,
                   laps_completed := data.laps_completed, laps_led := data.laps_led,
                   incident_points := data.incident_points,
                   race_points := data.race_points, bonus_points := data.bonus_points,
                   penalty_points := data.penalty_points,
                   total_points := data.total_points, fast_laps := data.fast_laps,
                   quality_passes := data.quality_passes,
                   closing_passes := data.closing_passes,
                   total_passes := data.total_passes,
                   average_running_position := data.average_running_position,
                   irating := data.irating, status := data.status,
                   car_id := data.car_id, updated_at := now }
        else r
      .ok ({ db with raceResults := rows }, db.lastInsertRowid)
    | none =>
      let rid := db.nextResultId
      let row : ResultRow :=
        { result_id := rid, race_id := race_id, driver_id := driver_id,
          team := data.team, finish_position := data.finish_position,
          starting_position := data.starting_position, car_number := data.car_number,
          qualifying_time := data.qualifying_time, fastest_lap := data.fastest_lap,
          fastest_lap_number := data.fastest_lap_number,
          average_lap := data.average_lap, interval := data.interval,
          laps_completed := data.laps_completed, laps_led := data.laps_led,
          incident_points := data.incident_points, race_points := data.race_points,
          bonus_points := data.bonus_points, penalty_points := data.penalty_points,
          total_points := data.total_points, fast_laps := data.fast_laps,
          quality_passes := data.quality_passes, closing_passes := data.closing_passes,
          total_passes := data.total_passes,
          average_running_position := data.average_running_position,
          irating := data.irating, status := data.status, car_id := data.car_id,
          created_at := now, updated_at := now }
      let db' := { db with raceResults := db.raceResults ++ [row],
                           nextResultId := rid + 1, lastInsertRowid := rid }
      .ok (db', db'.lastInsertRowid)

/-- The entity kinds `is_url_cached` and `log_scrape` accept. -/
def validEntityTypes : List String :=
  ["league", "series", "season", "race", "driver", "team"]

/-- Column names of each table exactly as created by
`Database.initialize_schema` — note that neither `races` nor `seasons` has
a `status` column. -/
def tableColumns (entityType : String) : List String :=
  if entityType = "league" then
    ["league_id", "name", "description", "url", "scraped_at", "created_at", "updated_at"]
  else if entityType = "team" then
    ["team_id", "league_id", "name", "driver_count", "url", "scraped_at",
     "created_at", "updated_at"]
  else if entityType = "driver" then
    ["driver_id", "league_id", "team_id", "name", "first_name", "last_name",
     "car_numbers", "primary_number", "club", "club_id", "irating", "safety_rating",
     "license_class", "url", "scraped_at", "created_at", "updated_at"]
  else if entityType = "series" then
    ["series_id", "league_id", "name", "description", "created_date", "num_seasons",
     "url", "scraped_at", "created_at", "updated_at"]
  else if entityType = "season" then
    ["season_id", "series_id", "name", "description", "url", "scraped_at",
     "created_at", "updated_at"]
  else if entityType = "race" then
    ["race_id", "schedule_id", "season_id", "race_number", "event_name", "date",
     "race_time", "practice_time", "track_id", "track_config_id", "track_name",
     "track_type", "track_length", "track_config_iracing_id", "planned_laps",
     "points_race", "off_week", "night_race", "playoff_race",
     "race_duration_minutes", "total_laps", "leaders", "lead_changes", "cautions",
     "caution_laps", "num_drivers", "weather_type", "cloud_conditions",
     "temperature_f", "humidity_pct", "fog_pct", "weather_wind_speed",
     "weather_wind_dir", "weather_wind_unit", "url", "is_complete", "scraped_at",
     "created_at", "updated_at"]
  else []

/-- The `SELECT scraped_at FROM {table} WHERE url = ?` lookup shared by the
tables `is_url_cached` dispatches over (`table_map` in the source); `none` in
the result means no row matched the URL. -/
def urlScrapedAt (db : DB) (entityType url : String) : Except SqlError (Option String) :=
  if ¬ validEntityTypes.contains entityType then
    .error (.valueError ("Invalid entity_type: " ++ entityType))
  else if entityType = "league" then
    .ok ((db.leagues.find? (·.url == url)).map (·.scraped_at))
  else if entityType = "series" then
    .ok ((db.series.find? (·.url == url)).map (·.scraped_at))
  else if entityType = "season" then
    .ok ((db.seasons.find? (·.url == url)).map (·.scraped_at))
  else if entityType = "race" then
    .ok ((db.races.find? (·.url == url)).map (·.scraped_at))
  else if entityType = "driver" then
    .ok ((db.drivers.find? (·.url == url)).map (·.scraped_at))
  else
    .ok ((db.teams.find? (fun r => r.url == some url)).map (·.scraped_at))

/-- Database.is_url_cached: no row ⟹ false; `max_age_days = None` ⟹ true;
falsy or unparseable `scraped_at` ⟹ false; otherwise fresh iff
`age_days < max_age_days`, i.e. `now − t < max_age_days · 86400` (the exact
integer form of the source's real-valued comparison). -/
def is_url_cached (db : DB) (url entityType : String) (maxAgeDays : Option Nat)
    (now : Int) : Except SqlError Bool := do
  let sa? ← urlScrapedAt db entityType url
  match sa? with
  | none => pure false
  | some sa =>
    match maxAgeDays with
    | none => pure true
    | some maxAge =>
      if sa = "" then pure false
      else
        match parseTimestamp sa with
        | none => pure false
        | some t => pure (decide (now - t < (maxAge : Int) * 86400))

/-- Reason codes of `should_scrape` (the Python function builds these as
formatted strings; the numeric details interpolated into them are not part
of any verified property). -/
inductive Reason where
  | notInCache
  | cacheValidIndefinitely
  | cacheStale
  | invalidTimestamp
  | statusNeedsRefresh (status : String)
  | statusCompletedStable
  | cacheFresh
deriving Repr, DecidableEq

/-- The `SELECT scraped_at FROM {table} WHERE {id_col} = ?` row lookup used
by `should_scrape` (`table_map` there also covers team and driver). -/
def scrapedAtById (db : DB) (entityType : String) (entityId : Nat) : Option String :=
  if entityType = "league" then (get_league db entityId).map (·.scraped_at)
  else if entityType = "series" then (get_series db entityId).map (·.scraped_at)
  else if entityType = "season" then (get_season db entityId).map (·.scraped_at)
  else if entityType = "race" then (get_race db entityId).map (·.scraped_at)
  else if entityType = "team" then (get_team db entityId).map (·.scraped_at)
  else (get_driver db entityId).map (·.scraped_at)

/-- Database.should_scrape.  For `race` and `season` the source issues
`SELECT scraped_at, status FROM {table} ..`; SQLite rejects the statement
whenever a selected column is absent from the table's schema
(`sqlite3.OperationalError: no such column: ..`), before any row is read.
The remainder mirrors the source: missing row ⟹ `(True, not_in_cache)`;
`validity_hours is None` ⟹ `(False, cache_valid_indefinitely)`; unparseable
timestamp ⟹ `(True, invalid_timestamp)`; stale ⟹ `(True, cache_stale)`;
then the status checks, reachable only with a truthy status value. -/
def should_scrape (db : DB) (entityType : String) (entityId : Nat)
    (validityHours : Option Nat) (now : Int) : Except SqlError (Bool × Reason) :=
  if ¬ validEntityTypes.contains entityType then
    .error (.valueError ("Unknown entity type: " ++ entityType))
  else
    let hasStatus := entityType = "race" ∨ entityType = "season"
    let queryCols := if hasStatus then ["scraped_at", "status"] else ["scraped_at"]
    match queryCols.find? (fun c => ¬ (tableColumns entityType).contains c) with
    | some c => .error (.operationalError ("no such column: " ++ c))
    | none =>
      match scrapedAtById db entityType entityId with
      | none => .ok (true, .notInCache)
      | some scrapedAt =>
        -- No table created by `initialize_schema` has a `status` column, so a
        -- status value can never be produced; for race/season this point is
        -- unreachable (the SELECT above has already failed).
        let status : Option String := none
        match validityHours with
        | none => .ok (false, .cacheValidIndefinitely)
        | some validity =>
          match parseTimestamp scrapedAt with
          | none => .ok (true, .invalidTimestamp)
          | some t =>
            if now - t > (validity : Int) * 3600 then .ok (true, .cacheStale)
            else if hasStatus ∧ pyTruthyStr status then
              let s := status.getD ""
              if s = "upcoming" ∨ s = "ongoing" ∨ s = "active" then
                .ok (true, .statusNeedsRefresh s)
              else if s = "completed" then .ok (false, .statusCompletedStable)
              else .ok (false, .cacheFresh)
            else .ok (false, .cacheFresh)

/-- Database.log_scrape: validate `entity_url` / `status` truthiness and the
two enum domains, then append to `scrape_log` and return the new log id
(a genuine insert, so `cursor.lastrowid` is the fresh id). -/
def log_scrape (db : DB) (entityType entityUrl status : String)
    (entityId : Option Nat) (errorMsg : Option String) (durationMs : Option Nat)
    (now : Int) : Except SqlError (DB × Nat) :=
  if entityUrl = "" ∨ status = "" then
    .error (.valueError "entity_url and status are required fields")
  else if ¬ validEntityTypes.contains entityType then
    .error (.valueError ("Invalid entity_type: " ++ entityType))
  else if ¬ ["success", "failed", "skipped"].contains status then
    .error (.valueError ("Invalid status: " ++ status))
  else
    let lid := db.nextLogId
    let row : LogRow :=
      { log_id := lid, entity_type := entityType, entity_id := entityId,
        entity_url := entityUrl, status := status, error_message := errorMsg,
        duration_ms := durationMs, timestamp := now }
    .ok ({ db with scrapeLog := db.scrapeLog ++ [row], nextLogId := lid + 1,
                   lastInsertRowid := lid }, lid)

end Database

/-- The message text carried by a raised error (`str(e)` at the orchestrator's
except-handlers). -/
def Database.SqlError.message : Database.SqlError → String
  | .valueError m => m
  | .integrityError m => m
  | .operationalError m => m

namespace Orchestrator

open Database

/-- One entry of `self.progress["errors"]`. -/
structure ErrorEntry where
  entity : String
  url : String
  error : String
deriving Repr, DecidableEq

/-- The orchestrator's progress-tracking dictionary. -/
structure Progress where
  leaguesScraped : Nat := 0
  seriesScraped : Nat := 0
  seasonsScraped : Nat := 0
  racesScraped : Nat := 0
  skippedCached : Nat := 0
  errors : List ErrorEntry := []
deriving Repr, DecidableEq

/-- Orchestrator-visible state: the store, the progress dictionary, and the
trace of page-fetch attempts (URLs handed to an extractor's `extract`), which
makes the claims about "no fetch occurs" statable. -/
structure OrchState where
  db : DB
  progress : Progress := {}
  fetched : List String := []
deriving Repr, DecidableEq

/-- Child series descriptor from a league page
(`league_data["child_urls"]["series"]`). -/
structure SeriesInfo where
  series_id : Nat
  url : String
  name : Option String := none
  description : Option String := none
  created_date : Option String := none
  num_seasons : Option Nat := none
deriving Repr, DecidableEq

/-- League-page metadata from `LeagueExtractor.extract`. -/
structure LeagueMeta where
  league_id : Nat
  name : String
  url : String
  description : Option String := none
  organizer : Option String := none
deriving Repr, DecidableEq

/-- Result of `LeagueExtractor.extract`. -/
structure LeagueExtract where
  metadata : LeagueMeta
  series : List SeriesInfo := []
deriving Repr, DecidableEq

/-- Series-page metadata from `SeriesExtractor.extract`. -/
structure SeriesMeta where
  series_id : Nat
  name : String
  url : String
  description : Option String := none
  created_date : Option String := none
  season_count : Option Nat := none
  num_seasons : Option Nat := none
deriving Repr, DecidableEq

/-- Child season descriptor from a series page. -/
structure SeasonInfo where
  url : String
  season_id : Option Nat := none
  name : Option String := none
deriving Repr, DecidableEq

/-- Result of `SeriesExtractor.extract`. -/
structure SeriesExtract where
  metadata : SeriesMeta
  seasons : List SeasonInfo := []
deriving Repr, DecidableEq

/-- Season-page metadata from `SeasonExtractor.extract`. -/
structure SeasonMeta where
  season_id : Nat
  name : String
  url : String
  description : Option String := none
deriving Repr, DecidableEq

/-- Child race descriptor from a season schedule page. -/
structure RaceInfo where
  url : String
  schedule_id : Nat
  race_number : Option Int := none
  has_results : Option Bool := none
deriving Repr, DecidableEq

/-- Result of `SeasonExtractor.extract`. -/
structure SeasonExtract where
  metadata : SeasonMeta
  races : List RaceInfo := []
deriving Repr, DecidableEq

/-- Race-page HTML metadata from `RaceExtractor.extract`. -/
structure RaceMeta where
  url : String
  schedule_id : Nat
  track_name : Option String := none
  track_type : Option String := none
  date : Option String := none
  weather_type : Option String := none
  cloud_conditions : Option String := none
  temperature_f : Option Int := none
  humidity_pct : Option Int := none
  fog_pct : Option Int := none
  race_duration_minutes : Option Int := none
  total_laps : Option Int := none
  leaders : Option Int := none
  lead_changes : Option Int := none
  cautions : Option Int := none
  caution_laps : Option Int := none
deriving Repr, DecidableEq

/-- Embedded schedule payload of a race page (every field a raw string, as
delivered by the JavaScript object). -/
structure ScheduleObj where
  event_name : Option String := none
  race_date : Option String := none
  race_time : Option String := none
  pract_time : Option String := none
  track_id : Option String := none
  track_config_id : Option String := none
  track_name : Option String := none
  track_config_name : Option String := none
  track_length : Option String := none
  track_config_iracing_id : Option String := none
  planned_laps : Option String := none
  points_count : Option String := none
  off_week : Option String := none
  night : Option String := none
  chase : Option String := none
  weather_type : Option String := none
  weather_skies : Option String := none
  weather_temp : Option String := none
  weather_rh : Option String := none
  weather_fog : Option String := none
  weather_wind : Option String := none
  weather_winddir : Option String := none
  weather_windunit : Option String := none
deriving Repr, DecidableEq

/-- One result row parsed by `RaceExtractor` (fields named exactly as the
`_store_race_result` mapping reads them). -/
structure RaceResultExtract where
  driver_id : Option Nat := none
  driver_name : Option String := none
  team : Option String := none
  finish_position : Option Int := none
  starting_position : Option Int := none
  car_number : Option String := none
  qualifying_time : Option String := none
  fastest_lap : Option String := none
  fastest_lap_number : Option Int := none
  average_lap : Option String := none
  interval : Option String := none
  laps_completed : Option Int := none
  laps_led : Option Int := none
  incident_points : Option Int := none
  race_points : Option Int := none
  bonus_points : Option Int := none
  penalty_points : Option Int := none
  total_points : Option Int := none
  fast_laps : Option Int := none
  quality_passes : Option Int := none
  closing_passes : Option Int := none
  total_passes : Option Int := none
  average_running_position : Option String := none
  irating : Option Int := none
  status : Option String := none
  car_id : Option Int := none
deriving Repr, DecidableEq

/-- Result of `RaceExtractor.extract`. -/
structure RaceExtract where
  metadata : RaceMeta
  results : List RaceResultExtract := []
  schedule : Option ScheduleObj := none
deriving Repr, DecidableEq

/-- The extraction oracles: what each extractor's `extract(url)` would
deliver (the composition of FetchGate, SchemaGuard and parsing; an `error`
is any exception raised by that pipeline, e.g. a `SchemaChangeDetected` or a
transport failure after retries). -/
structure Extractors where
  league : String → Except String LeagueExtract
  series : String → Except String SeriesExtract
  season : String → Except String SeasonExtract
  race : String → Except String RaceExtract

/-- The optional filters dictionary of `scrape_league`. -/
structure Filters where
  series_ids : Option (List Nat) := none
  season_year : Option Nat := none
  season_limit : Option Nat := none
deriving Repr, DecidableEq

/-- Append an entry to `progress["errors"]`. -/
def addError (st : OrchState) (entity url msg : String) : OrchState :=
  { st with progress :=
      { st.progress with errors := st.progress.errors ++ [⟨entity, url, msg⟩] } }

/-- A `self.db.log_scrape(..)` call from the orchestrator.  Elapsed-time
measurement is not modelled (`duration_ms := none`).  `log_scrape` can only
fail on an invalid enum value and every orchestrator call site passes literal
valid values, so the error branch is unreachable. -/
def doLog (st : OrchState) (etype url status : String) (errorMsg : Option String)
    (now : Int) : OrchState :=
  match Database.log_scrape st.db etype url status none errorMsg none now with
  | .ok (db', _) => { st with db := db' }
  | .error _ => st

/-- Record a fetch attempt (the orchestrator handing a URL to an extractor). -/
def recordFetch (st : OrchState) (url : String) : OrchState :=
  { st with fetched := st.fetched ++ [url] }

/-- Orchestrator._parse_int (over the raw strings of the schedule payload):
`int(value)`, `None`-propagating, `None` on parse failure. -/
def parseIntOpt (v : Option String) : Option Int :=
  v.bind (fun s => s.toInt?)

/-- Orchestrator._parse_float, for the `REAL`-column field `track_length`:
parse failure gives `None`; a parseable value is kept in raw string form
(float arithmetic is not modelled).  Validity is approximated by a
character-class check. -/
def parseFloatRaw (v : Option String) : Option String :=
  v.bind fun s =>
    if s ≠ "" ∧ s.toList.all (fun c => c.isDigit ∨ c = '.' ∨ c = '-' ∨ c = '+') then
      some s
    else none

/-- Orchestrator._yn_to_bool. -/
def ynToBool (v : Option String) : Option Bool :=
  match v with
  | some "Y" => some true
  | some "N" => some false
  | _ => none

/-- Orchestrator._parse_driver_name: comma form splits on the first comma
(left = last name, right = first name); otherwise the first whitespace token
is the first name and the remainder the last name; empty/whitespace input
gives two nulls. -/
def parseDriverName (fullName : Option String) : Option String × Option String :=
  match fullName with
  | none => (none, none)
  | some raw =>
    if (charsTrim raw.toList).isEmpty then (none, none)
    else
      let s := charsTrim raw.toList
      if s.contains ',' then
        -- `full_name.split(",", 1)`: span to the first comma
        let beforeComma := s.takeWhile (· ≠ ',')
        let afterComma := (s.dropWhile (· ≠ ',')).drop 1
        let lastName := charsTrim beforeComma
        let firstName := charsTrim afterComma
        if firstName.isEmpty then
          if lastName.isEmpty then (none, none)
          else (none, some (String.mk lastName))
        else if lastName.isEmpty then (some (String.mk firstName), none)
        else (some (String.mk firstName), some (String.mk lastName))
      else
        match splitOnWhite s with
        | [] => (none, none)
        | [p] => (some (String.mk p), none)
        | p :: rest =>
          (some (String.mk p),
           some (String.mk (charsTrim (rest.foldl (fun acc g => acc ++ ' ' :: g) []))))

/-- The driver profile URL written on lazy driver insert. -/
def driverStatsUrl (driverId : Nat) : String :=
  "https://www.simracerhub.com/driver_stats.php?driver_id=" ++ toString driverId

/-- Orchestrator._build_race_data: schedule payload (when present) is
authoritative for configuration/track/weather/flags, HTML metadata is the
fallback, and the HTML statistics block is always overlaid on top. -/
def buildRaceData (metadata : RaceMeta) (schedule : Option ScheduleObj)
    (raceNumber : Int) (numDrivers : Nat) (nowIso : String) : RaceData :=
  let base : RaceData :=
    { url := some metadata.url, race_number := some raceNumber,
      num_drivers := some (numDrivers : Int), is_complete := some true,
      scraped_at := some nowIso }
  let base2 : RaceData :=
    match schedule with
    | some s =>
      { base with
          event_name := s.event_name, date := s.race_date, race_time := s.race_time,
          practice_time := s.pract_time, track_id := parseIntOpt s.track_id,
          track_config_id := parseIntOpt s.track_config_id,
          track_name := s.track_name, track_type := s.track_config_name,
          track_length := parseFloatRaw s.track_length,
          track_config_iracing_id := s.track_config_iracing_id,
          planned_laps := parseIntOpt s.planned_laps,
          points_race := ynToBool s.points_count, off_week := ynToBool s.off_week,
          night_race := ynToBool s.night, playoff_race := ynToBool s.chase,
          weather_type := s.weather_type, cloud_conditions := s.weather_skies,
          temperature_f := parseIntOpt s.weather_temp,
          humidity_pct := parseIntOpt s.weather_rh,
          fog_pct := parseIntOpt s.weather_fog,
          weather_wind_speed := s.weather_wind,
          weather_wind_dir := s.weather_winddir,
          weather_wind_unit := s.weather_windunit }
    | none =>
      { base with
          track_name := metadata.track_name, track_type := metadata.track_type,
          date := metadata.date, weather_type := metadata.weather_type,
          cloud_conditions := metadata.cloud_conditions,
          temperature_f := metadata.temperature_f,
          humidity_pct := metadata.humidity_pct, fog_pct := metadata.fog_pct }
  { base2 with
      race_duration_minutes := metadata.race_duration_minutes,
      total_laps := metadata.total_laps, leaders := metadata.leaders,
      lead_changes := metadata.lead_changes, cautions := metadata.cautions,
      caution_laps := metadata.caution_laps }

/-- Orchestrator._store_race_result: a result without a truthy driver id is
silently dropped; missing season/series context drops it likewise; driver
upsert failure drops just this result; race-result upsert failure is
swallowed. -/
def storeRaceResult (st : OrchState) (raceId : Nat) (result : RaceResultExtract)
    (seasonId : Nat) (now : Int) (nowIso : String) : OrchState :=
  match result.driver_id with
  | none => st
  | some did =>
    if did = 0 then st
    else
      let driverName := result.driver_name.getD "Unknown Driver"
      match Database.get_season st.db seasonId with
      | none => st
      | some season =>
        match Database.get_series st.db season.series_id with
        | none => st
        | some series =>
          let leagueId := series.league_id
          let nameParts := parseDriverName (some driverName)
          match Database.upsert_driver st.db did leagueId
              { name := some driverName, first_name := nameParts.1,
                last_name := nameParts.2, url := some (driverStatsUrl did),
                scraped_at := some nowIso } now with
          | .error _ => st
          | .ok (db1, _) =>
            let resultData : ResultData :=
              { team := result.team, finish_position := result.finish_position,
                starting_position := result.starting_position,
                car_number := result.car_number,
                qualifying_time := result.qualifying_time,
                fastest_lap := result.fastest_lap,
                fastest_lap_number := result.fastest_lap_number,
                average_lap := result.average_lap, interval := result.interval,
                laps_completed := result.laps_completed, laps_led := result.laps_led,
                incident_points := result.incident_points,
                race_points := result.race_points,
                bonus_points := result.bonus_points,
                penalty_points := result.penalty_points,
                total_points := result.total_points, fast_laps := result.fast_laps,
                quality_passes := result.quality_passes,
                closing_passes := result.closing_passes,
                total_passes := result.total_passes,
                average_running_position := result.average_running_position,
                irating := result.irating, status := result.status,
                car_id := result.car_id }
            match Database.upsert_race_result db1 raceId did resultData now with
            | .error _ => { st with db := db1 }
            | .ok (db2, _) => { st with db := db2 }

/-- Try-block of `Orchestrator.scrape_race`.  An `error` result is the state
at the moment an exception was raised plus its message (the caller's
except-handler consumes it). -/
def scrapeRaceBody (ex : Extractors) (now : Int) (nowIso : String) (raceUrl : String)
    (seasonId scheduleId : Nat) (raceNumber : Int) (hasResults : Bool)
    (cacheMaxAgeDays : Option Nat) (force : Bool) (st : OrchState) :
    Except (OrchState × String) OrchState :=
  if ¬ hasResults then
    -- No results URL: store metadata only, with a false completion flag, and skip.
    match Database.upsert_race st.db scheduleId seasonId
        { url := some raceUrl, is_complete := some false,
          scraped_at := some nowIso, race_number := some raceNumber } now with
    | .error e => .error (st, e.message)
    | .ok (db', _) => .ok { st with db := db' }
  else if ¬ force ∧ Database.is_race_complete st.db scheduleId then
    .ok { st with progress :=
            { st.progress with skippedCached := st.progress.skippedCached + 1 } }
  else
    match (if ¬ force ∧ cacheMaxAgeDays ≠ none then
             Database.is_url_cached st.db raceUrl "race" cacheMaxAgeDays now
           else .ok false) with
    | .error e => .error (st, e.message)
    | .ok true =>
      .ok { st with progress :=
              { st.progress with skippedCached := st.progress.skippedCached + 1 } }
    | .ok false =>
      let st1 := recordFetch st raceUrl
      match ex.race raceUrl with
      | .error e => .error (st1, e)
      | .ok raceData =>
        let metadata := raceData.metadata
        let results := raceData.results
        let raceDict := buildRaceData metadata raceData.schedule raceNumber
          results.length nowIso
        match Database.upsert_race st1.db metadata.schedule_id seasonId raceDict now with
        | .error e => .error (st1, e.message)
        | .ok (db', raceId) =>
          let st2 := { st1 with
            db := db',
            progress :=
              { st1.progress with racesScraped := st1.progress.racesScraped + 1 } }
          let st3 := results.foldl
            (fun s r => storeRaceResult s raceId r seasonId now nowIso) st2
          .ok (doLog st3 "race" raceUrl "success" none now)

/-- Orchestrator.scrape_race: try-block plus the except-handler (record the
error in the progress snapshot, log `failed`, do not re-raise). -/
def scrapeRace (ex : Extractors) (now : Int) (nowIso : String) (raceUrl : String)
    (seasonId scheduleId : Nat) (raceNumber : Int) (hasResults : Bool)
    (cacheMaxAgeDays : Option Nat) (force : Bool) (st : OrchState) : OrchState :=
  match scrapeRaceBody ex now nowIso raceUrl seasonId scheduleId raceNumber
      hasResults cacheMaxAgeDays force st with
  | .ok st' => st'
  | .error (st', msg) =>
    doLog (addError st' "race" raceUrl msg) "race" raceUrl "failed" (some msg) now

/-- Try-block of `Orchestrator.scrape_season`.  Note the cache gate: the
source tests only `cache_max_age_days is not None` — it does NOT consult
`force` at this level. -/
def scrapeSeasonBody (ex : Extractors) (now : Int) (nowIso : String)
    (seasonUrl : String) (seasonId seriesId : Nat) (depth : String)
    (filters : Filters) (cacheMaxAgeDays : Option Nat) (force : Bool)
    (st : OrchState) : Except (OrchState × String) OrchState :=
  match (if cacheMaxAgeDays ≠ none then
           Database.is_url_cached st.db seasonUrl "season" cacheMaxAgeDays now
         else .ok false) with
  | .error e => .error (st, e.message)
  | .ok true =>
    .ok { st with progress :=
            { st.progress with skippedCached := st.progress.skippedCached + 1 } }
  | .ok false =>
    let st1 := recordFetch st seasonUrl
    match ex.season seasonUrl with
    | .error e => .error (st1, e)
    | .ok seasonData =>
      let metadata := seasonData.metadata
      let seasonName :=
        match Database.get_season st1.db seasonId with
        | some existing => if existing.name ≠ "" then existing.name else metadata.name
        | none => metadata.name
      match Database.upsert_season st1.db seasonId seriesId
          { name := some seasonName, url := some metadata.url,
            scraped_at := some nowIso, description := metadata.description } now with
      | .error e => .error (st1, e.message)
      | .ok (db', _) =>
        let st2 := { st1 with
          db := db',
          progress :=
            { st1.progress with seasonsScraped := st1.progress.seasonsScraped + 1 } }
        let st3 := doLog st2 "season" seasonUrl "success" none now
        if depth = "race" then
          .ok (seasonData.races.foldl
            (fun s ri => scrapeRace ex now nowIso ri.url seasonId ri.schedule_id
              (ri.race_number.getD 0) (ri.has_results.getD true)
              cacheMaxAgeDays force s) st3)
        else .ok st3

/-- Orchestrator.scrape_season: try-block plus except-handler (record error,
log `failed`, continue with other seasons — no re-raise). -/
def scrapeSeason (ex : Extractors) (now : Int) (nowIso : String) (seasonUrl : String)
    (seasonId seriesId : Nat) (depth : String) (filters : Filters)
    (cacheMaxAgeDays : Option Nat) (force : Bool) (st : OrchState) : OrchState :=
  match scrapeSeasonBody ex now nowIso seasonUrl seasonId seriesId depth filters
      cacheMaxAgeDays force st with
  | .ok st' => st'
  | .error (st', msg) =>
    doLog (addError st' "season" seasonUrl msg) "season" seasonUrl "failed"
      (some msg) now

/-- The parent-discovery loop of `scrape_series`: upsert every discovered
season with its series-page attributes and the reserved epoch sentinel for
`scraped_at`.  A raised error carries the state reached so far (earlier
upserts are already committed). -/
def sentinelSeasonUpserts (seriesId : Nat) (now : Int) :
    List SeasonInfo → OrchState → Except (OrchState × String) OrchState
  | [], st => .ok st
  | info :: rest, st =>
    match Database.upsert_season st.db (info.season_id.getD 0) seriesId
        { name := some (info.name.getD "Unknown Season"), url := some info.url,
          scraped_at := some "1970-01-01T00:00:00" } now with
    | .error e => .error (st, e.message)
    | .ok (db', _) => sentinelSeasonUpserts seriesId now rest { st with db := db' }

/-- Try-block of `Orchestrator.scrape_series`: always fetch; preserve the
league-page name and any populated optional fields of an existing row; then
parent-discover seasons (epoch sentinel) and recurse. -/
def scrapeSeriesBody (ex : Extractors) (now : Int) (nowIso : String)
    (seriesUrl : String) (leagueId : Nat) (depth : String) (filters : Filters)
    (cacheMaxAgeDays : Option Nat) (force : Bool) (st : OrchState) :
    Except (OrchState × String) OrchState :=
  let st1 := recordFetch st seriesUrl
  match ex.series seriesUrl with
  | .error e => .error (st1, e)
  | .ok seriesData =>
    let metadata := seriesData.metadata
    let existing := Database.get_series st1.db metadata.series_id
    let seriesName :=
      match existing with
      | some ex0 => if ex0.name ≠ "" then ex0.name else metadata.name
      | none => metadata.name
    let description :=
      if pyTruthyStr metadata.description then metadata.description
      else
        match existing with
        | some ex0 => if pyTruthyStr ex0.description then ex0.description else none
        | none => none
    let createdDate :=
      if pyTruthyStr metadata.created_date then metadata.created_date
      else
        match existing with
        | some ex0 => if pyTruthyStr ex0.created_date then ex0.created_date else none
        | none => none
    let numSeasons :=
      if pyTruthyNat metadata.season_count then metadata.season_count
      else if pyTruthyNat metadata.num_seasons then metadata.num_seasons
      else
        match existing with
        | some ex0 => if pyTruthyNat ex0.num_seasons then ex0.num_seasons else none
        | none => none
    match Database.upsert_series st1.db metadata.series_id leagueId
        { name := some seriesName, url := some metadata.url,
          scraped_at := some nowIso, description := description,
          created_date := createdDate, num_seasons := numSeasons } now with
    | .error e => .error (st1, e.message)
    | .ok (db', _) =>
      let st2 := { st1 with
        db := db',
        progress :=
          { st1.progress with seriesScraped := st1.progress.seriesScraped + 1 } }
      let st3 := doLog st2 "series" seriesUrl "success" none now
      if depth = "season" ∨ depth = "race" then
        let seasons := seriesData.seasons
        let seasons :=
          match filters.season_year with
          | some y => seasons.filter (fun s => strContainsSub (s.name.getD "") (toString y))
          | none => seasons
        let seasons :=
          match filters.season_limit with
          | some l => seasons.take l
          | none => seasons
        match sentinelSeasonUpserts metadata.series_id now seasons st3 with
        | .error p => .error p
        | .ok st4 =>
          .ok (seasons.foldl
            (fun s si => scrapeSeason ex now nowIso si.url (si.season_id.getD 0)
              metadata.series_id depth filters cacheMaxAgeDays force s) st4)
      else .ok st3

/-- Orchestrator.scrape_series: try-block plus except-handler (record error,
log `failed`, do NOT re-raise — siblings continue). -/
def scrapeSeries (ex : Extractors) (now : Int) (nowIso : String) (seriesUrl : String)
    (leagueId : Nat) (depth : String) (filters : Filters)
    (cacheMaxAgeDays : Option Nat) (force : Bool) (st : OrchState) : OrchState :=
  match scrapeSeriesBody ex now nowIso seriesUrl leagueId depth filters
      cacheMaxAgeDays force st with
  | .ok st' => st'
  | .error (st', msg) =>
    doLog (addError st' "series" seriesUrl msg) "series" seriesUrl "failed"
      (some msg) now

/-- The parent-discovery loop of `scrape_league`: upsert every discovered
series with its league-page attributes and the reserved epoch sentinel. -/
def sentinelSeriesUpserts (leagueId : Nat) (now : Int) :
    List SeriesInfo → OrchState → Except (OrchState × String) OrchState
  | [], st => .ok st
  | info :: rest, st =>
    match Database.upsert_series st.db info.series_id leagueId
        { name := some (info.name.getD "Unknown Series"), url := some info.url,
          scraped_at := some "1970-01-01T00:00:00", description := info.description,
          created_date := info.created_date, num_seasons := info.num_seasons } now with
    | .error e => .error (st, e.message)
    | .ok (db', _) => sentinelSeriesUpserts leagueId now rest { st with db := db' }

/-- Try-block of `Orchestrator.scrape_league`: always fetch the league page
(never cache-skipped), persist, then parent-discover and walk the series. -/
def scrapeLeagueBody (ex : Extractors) (now : Int) (nowIso : String)
    (leagueUrl : String) (depth : String) (filters : Filters)
    (cacheMaxAgeDays : Option Nat) (force : Bool) (st : OrchState) :
    Except (OrchState × String) OrchState :=
  let st1 := recordFetch st leagueUrl
  match ex.league leagueUrl with
  | .error e => .error (st1, e)
  | .ok leagueData =>
    let metadata := leagueData.metadata
    match Database.upsert_league st1.db metadata.league_id
        { name := some metadata.name, url := some metadata.url,
          description := metadata.description, organizer := metadata.organizer,
          scraped_at := some nowIso } now with
    | .error e => .error (st1, e.message)
    | .ok (db', _) =>
      let st2 := { st1 with
        db := db',
        progress :=
          { st1.progress with leaguesScraped := st1.progress.leaguesScraped + 1 } }
      let st3 := doLog st2 "league" leagueUrl "success" none now
      if depth = "series" ∨ depth = "season" ∨ depth = "race" then
        let seriesUrls := leagueData.series
        let seriesUrls :=
          match filters.series_ids with
          | some allowed => seriesUrls.filter (fun s => allowed.contains s.series_id)
          | none => seriesUrls
        match sentinelSeriesUpserts metadata.league_id now seriesUrls st3 with
        | .error p => .error p
        | .ok st4 =>
          .ok (seriesUrls.foldl
            (fun s si => scrapeSeries ex now nowIso si.url metadata.league_id depth
              filters cacheMaxAgeDays force s) st4)
      else .ok st3

/-- Orchestrator.scrape_league: unlike the lower levels, its except-handler
records the error, logs `failed` and RE-RAISES, so the result is an
`Except`; on success it returns the progress snapshot. -/
def scrapeLeague (ex : Extractors) (now : Int) (nowIso : String) (leagueUrl : String)
    (depth : String) (filters : Filters) (cacheMaxAgeDays : Option Nat)
    (force : Bool) (st : OrchState) :
    Except (OrchState × String) (OrchState × Progress) :=
  match scrapeLeagueBody ex now nowIso leagueUrl depth filters cacheMaxAgeDays
      force st with
  | .ok st' => .ok (st', st'.progress)
  | .error (st', msg) =>
    .error (doLog (addError st' "league" leagueUrl msg) "league" leagueUrl "failed"
      (some msg) now, msg)

end Orchestrator

namespace FetchGate

/-- A fetched, parsed page (opaque to the retry logic). -/
abbrev Page := String

/-- The retry loop shared by `BaseExtractor._fetch_static` and
`_fetch_with_browser`.  `attempts k` is the outcome of the `k`-th request
attempt (`k = 0` is the initial attempt); the returned list collects the
back-off sleeps performed, in order.  The Python loop guard
`while attempt <= max_retries` is carried here as the `remaining`
counter (`remaining = max_retries − attempt`, the number of retries still
allowed): on a failed attempt the source increments `attempt` and retries
after sleeping `(backoff_factor ** attempt) * backoff_factor` when
`attempt <= max_retries` still holds, and otherwise re-raises the last
exception. -/
def fetchLoop (backoff : Nat) (attempts : Nat → Except String Page) :
    Nat → Nat → List Nat → Except String Page × List Nat
  | k, remaining, sleeps =>
    match attempts k with
    | .ok page => (.ok page, sleeps)
    | .error e =>
      match remaining with
      | r + 1 =>
        fetchLoop backoff attempts (k + 1) r (sleeps ++ [backoff ^ (k + 1) * backoff])
      | 0 => (.error e, sleeps)

/-- One `_fetch_static` / `_fetch_with_browser` call: run the attempt loop
from attempt 0 with `max_retries` retries allowed, no sleeps yet. -/
def fetchPage (maxRetries backoff : Nat) (attempts : Nat → Except String Page) :
    Except String Page × List Nat :=
  fetchLoop backoff attempts 0 maxRetries []

end FetchGate

/-!  Concrete scenario states used by the claim theorems below. -/

open Database Orchestrator

/-- Unwrap a known-successful upsert (used only to build concrete states). -/
def okDb (r : Except SqlError (DB × Nat)) : DB :=
  match r with
  | .ok (db, _) => db
  | .error _ => DB.empty

/-- A store holding league 1558 / series 3714 / season 12345 (the ids of the
repository's own test fixtures). -/
def seededDb : DB :=
  okDb (upsert_season
    (okDb (upsert_series
      (okDb (upsert_league DB.empty 1558
        { name := some "The OBRL", url := some "http://test.com/league",
          scraped_at := some "2025-01-15" } 1))
      3714 1558
      { name := some "Wednesday Night Series", url := some "http://test.com/series",
        scraped_at := some "2025-01-15" } 2))
    12345 3714
    { name := some "Season 1", url := some "http://test.com/season",
      scraped_at := some "2025-01-15" } 3)

/-- Extractors that are never consulted (their pages are never fetched in the
scenarios that use them). -/
def stubExtractors : Extractors where
  league := fun _ => .error "unused"
  series := fun _ => .error "unused"
  season := fun _ => .error "unused"
  race := fun _ => .error "unused"

/-- C1 scenario: store a series with a non-null description, then upsert the
same series omitting the description, observing the description after each
call. -/
def c1Run : Except SqlError (Option String × Option String) := do
  let (db1, _) ← upsert_league DB.empty 1558
    { name := some "The OBRL", url := some "http://test.com/league",
      scraped_at := some "2025-01-15" } 1
  let (db2, _) ← upsert_series db1 3714 1558
    { name := some "Wednesday Night Series", url := some "http://test.com/series",
      scraped_at := some "2025-01-15 10:00:00",
      description := some "Weekly oval racing" } 2
  let d1 := (get_series db2 3714).bind (·.description)
  let (db3, _) ← upsert_series db2 3714 1558
    { name := some "Wednesday Night Series", url := some "http://test.com/series",
      scraped_at := some "2025-01-15 11:00:00" } 3
  let d2 := (get_series db3 3714).bind (·.description)
  pure (d1, d2)

/-- C1 scenario over all six entity kinds: for each kind, upsert with one
optional attribute set, then upsert the same id omitting it, and read the
attribute back (league.description, team.driver_count, driver.irating,
series.description, season.description, race.track_name). -/
def c1AllKindsRun : Except SqlError
    (Option String × Option Nat × Option Int × Option String × Option String ×
     Option String) := do
  let (db1, _) ← upsert_league DB.empty 1558
    { name := some "L", url := some "uL", scraped_at := some "t",
      description := some "league desc" } 1
  let (db2, _) ← upsert_league db1 1558
    { name := some "L", url := some "uL", scraped_at := some "t" } 2
  let leagueDesc := (get_league db2 1558).bind (·.description)
  let (db3, _) ← upsert_team db2 77 1558
    { name := some "T", scraped_at := some "t", driver_count := some 4 } 3
  let (db4, _) ← upsert_team db3 77 1558
    { name := some "T", scraped_at := some "t" } 4
  let teamCount := (get_team db4 77).bind (·.driver_count)
  let (db5, _) ← upsert_driver db4 9001 1558
    { name := some "John Doe", url := some "uD", scraped_at := some "t",
      irating := some 1500 } 5
  let (db6, _) ← upsert_driver db5 9001 1558
    { name := some "John Doe", url := some "uD", scraped_at := some "t" } 6
  let driverIr := (get_driver db6 9001).bind (·.irating)
  let (db7, _) ← upsert_series db6 3714 1558
    { name := some "S", url := some "uS", scraped_at := some "t",
      description := some "series desc" } 7
  let (db8, _) ← upsert_series db7 3714 1558
    { name := some "S", url := some "uS", scraped_at := some "t" } 8
  let seriesDesc := (get_series db8 3714).bind (·.description)
  let (db9, _) ← upsert_season db8 12345 3714
    { name := some "Sn", url := some "uSn", scraped_at := some "t",
      description := some "season desc" } 9
  let (db10, _) ← upsert_season db9 12345 3714
    { name := some "Sn", url := some "uSn", scraped_at := some "t" } 10
  let seasonDesc := (get_season db10 12345).bind (·.description)
  let (db11, _) ← upsert_race db10 101 12345
    { url := some "uR", scraped_at := some "t", race_number := some 1,
      track_name := some "Daytona" } 11
  let (db12, _) ← upsert_race db11 101 12345
    { url := some "uR", scraped_at := some "t", race_number := some 1 } 12
  let raceTrack := (get_race db12 101).bind (·.track_name)
  pure (leagueDesc, teamCount, driverIr, seriesDesc, seasonDesc, raceTrack)

/-- C6 scenario: insert race 101, insert race 102, then upsert race 101
again (update branch) and observe the returned ids and the stored surrogate
id of schedule 101. -/
def c6Run : Except SqlError (Nat × Nat × Option Nat) := do
  let (db1, _) ← upsert_league DB.empty 1558
    { name := some "L", url := some "uL", scraped_at := some "t" } 1
  let (db2, _) ← upsert_series db1 3714 1558
    { name := some "S", url := some "uS", scraped_at := some "t" } 2
  let (db3, _) ← upsert_season db2 12345 3714
    { name := some "Sn", url := some "uSn", scraped_at := some "t" } 3
  let (db4, r1) ← upsert_race db3 101 12345
    { url := some "uR1", scraped_at := some "t", race_number := some 1 } 4
  let (db5, _) ← upsert_race db4 102 12345
    { url := some "uR2", scraped_at := some "t", race_number := some 2 } 5
  let (db6, r3) ← upsert_race db5 101 12345
    { url := some "uR1", scraped_at := some "t2", race_number := some 1 } 6
  pure (r1, r3, (get_race db6 101).map (·.race_id))

/-- C3 scenario: a store whose race 324462 has its completion flag set. -/
def c3Db : DB :=
  okDb (upsert_race seededDb 324462 12345
    { url := some "http://test.com/race", scraped_at := some "2025-01-15",
      race_number := some 1, is_complete := some true } 4)

/-- C3 scenario state. -/
def c3St : OrchState := { db := c3Db }

/-- C3 counterexample run: `scrape_race` without `force`, with
`cache_max_age_days = 0`, on the completed race — but with
`has_results = False`. -/
def c3NoResultsRun : OrchState :=
  scrapeRace stubExtractors 100 "2025-01-16T00:00:00" "http://test.com/race"
    12345 324462 1 false (some 0) false c3St

/-- C5 scenario: a season row for url `http://test.com/season5` scraped one
day before `c5Now`, well within a 7-day window. -/
def c5Db : DB :=
  okDb (upsert_season
    (okDb (upsert_series
      (okDb (upsert_league DB.empty 1558
        { name := some "L", url := some "uL", scraped_at := some "t" } 1))
      3714 1558 { name := some "S", url := some "uS", scraped_at := some "t" } 2))
    12345 3714
    { name := some "Sn", url := some "http://test.com/season5",
      scraped_at := some "2026-10-11T00:00:00" } 3)

/-- Epoch seconds of 2026-10-12T00:00:00. -/
def c5Now : Int := 1791763200

/-- C5 run: `scrape_season` with `force = True` on the fresh cached season. -/
def c5Run : OrchState :=
  scrapeSeason stubExtractors c5Now "2026-10-12T00:00:00" "http://test.com/season5"
    12345 3714 "season" {} (some 7) true { db := c5Db }

/-- C4 scenario: a store with a parent-discovery season row whose
`scraped_at` is the reserved epoch sentinel. -/
def c4Db : DB :=
  { seasons := [{ season_id := 1, series_id := 1, name := "Sn", url := "U",
                  scraped_at := "1970-01-01T00:00:00" }] }

/-- C9 extractors: a league page listing two series; fetching the first
series page raises schema drift, the second succeeds. -/
def c9Extractors : Extractors where
  league := fun _ =>
    .ok { metadata := { league_id := 1558, name := "The OBRL", url := "uLg" },
          series := [{ series_id := 3714, url := "uS1", name := some "Series One" },
                     { series_id := 3713, url := "uS2", name := some "Series Two" }] }
  series := fun u =>
    if u = "uS1" then
      .error "Schema change detected for series: missing patterns"
    else
      .ok { metadata := { series_id := 3713, name := "Series Two", url := "uS2" } }
  season := fun _ => .error "unused"
  race := fun _ => .error "unused"

/-- C9 run: a full `scrape_league` at depth `series` over the two series. -/
def c9Run : Except (OrchState × String) (OrchState × Progress) :=
  scrapeLeague c9Extractors 100 "2026-10-12T00:00:00" "uLg" "series" {}
    (some 7) false { db := DB.empty }

/-- The state reached by the C9 run when it did not re-raise. -/
def c9State : Option OrchState :=
  match c9Run with
  | .ok (st, _) => some st
  | .error _ => none

/-- C10 extractors: the race page yields one result row whose name cell
carried no driver-id anchor (`driver_id` absent). -/
def c10Extractors : Extractors where
  league := fun _ => .error "unused"
  series := fun _ => .error "unused"
  season := fun _ => .error "unused"
  race := fun _ =>
    .ok { metadata := { url := "http://test.com/race10", schedule_id := 324462 },
          results := [{ driver_name := some "John Doe", finish_position := some 1 }] }

/-- C10 run: scrape a fresh race whose single parsed result has no driver id. -/
def c10Run : OrchState :=
  scrapeRace c10Extractors 100 "2025-01-16T00:00:00" "http://test.com/race10"
    12345 324462 3 true (some 7) false { db := seededDb }

/-- C8 attempts oracle: every request attempt fails. -/
def c8Attempts : Nat → Except String FetchGate.Page :=
  fun _ => .error "ConnectionError"

/-- Stored database after the first C1 witness upsert. -/
def c1WitnessDb : DB :=
  okDb (upsert_series seededDb 3714 1558
    { name := some "S", url := some "http://test.com/series",
      scraped_at := some "t" } 9)

/-!  Helper lemmas about row lookup after an upsert-style list rewrite. -/

/-- After mapping an update over exactly the rows matched by `p` (an update
that preserves `p`), the first `p`-row is the updated image of the previous
first `p`-row. -/
theorem find?_map_update {α : Type} (p : α → Bool) (g : α → α) (l : List α)
    (hg : ∀ a, p a = true → p (g a) = true) :
    (l.map fun a => if p a then g a else a).find? p = (l.find? p).map g := by
  induction l with
  | nil => rfl
  | cons a t ih =>
    by_cases h : p a = true
    · simp [List.map_cons, h, List.find?_cons_of_pos _ h,
        List.find?_cons_of_pos _ (hg a h)]
    · have h' : p a = false := by simpa using h
      rw [List.map_cons, if_neg (by simp [h']), List.find?_cons_of_neg _ (by simp [h']),
        List.find?_cons_of_neg _ (by simp [h']), ih]

/-- Appending a fresh matching row behind a list with no `p`-row makes it the
first `p`-row. -/
theorem find?_append_fresh {α : Type} (p : α → Bool) (l : List α) (a : α)
    (hl : l.find? p = none) (ha : p a = true) :
    (l ++ [a]).find? p = some a := by
  simp [List.find?_append, hl, List.find?_cons_of_pos _ ha]

/-- After any successful `upsert_series`, the optional columns of the stored
row equal exactly the supplied data — `none` (SQL `NULL`) when omitted: the
`DO UPDATE` branch sets every column from the excluded values. -/
theorem upsert_series_optionals (db : DB) (sid lid : Nat) (d : SeriesData)
    (now : Int) (db' : DB) (rid : Nat)
    (h : upsert_series db sid lid d now = .ok (db', rid)) :
    ∃ row, get_series db' sid = some row ∧ row.description = d.description ∧
      row.created_date = d.created_date ∧ row.num_seasons = d.num_seasons := by
  unfold upsert_series at h
  split at h
  · exact absurd h (by simp)
  · split at h
    · exact absurd h (by simp)
    · split at h
      case _ old hfind =>
        simp only [] at h
        split at h
        · exact absurd h (by simp)
        · simp only [Except.ok.injEq, Prod.mk.injEq] at h
          obtain ⟨hdb, -⟩ := h
          subst hdb
          have hrow := find?_map_update (fun x : SeriesRow => x.series_id == sid)
            (fun r : SeriesRow =>
              { r with league_id := lid, name := d.name.getD "",
                       url := d.url.getD "", description := d.description,
                       created_date := d.created_date,
                       num_seasons := d.num_seasons,
                       scraped_at := d.scraped_at.getD "", updated_at := now })
            db.series (fun a ha => ha)
          rw [hfind] at hrow
          refine ⟨_, hrow, ?_, ?_, ?_⟩ <;> rfl
      case _ hfind =>
        simp only [] at h
        split at h
        · exact absurd h (by simp)
        · simp only [Except.ok.injEq, Prod.mk.injEq] at h
          obtain ⟨hdb, -⟩ := h
          subst hdb
          exact ⟨{ series_id := sid, league_id := lid, name := d.name.getD "",
                   description := d.description, created_date := d.created_date,
                   num_seasons := d.num_seasons, url := d.url.getD "",
                   scraped_at := d.scraped_at.getD "", created_at := now,
                   updated_at := now },
                 find?_append_fresh _ _ _ hfind (by simp), rfl, rfl, rfl⟩

/-- After any successful `upsert_driver`, every optional column of the stored
row equals exactly the supplied data — `none` when omitted. -/
theorem upsert_driver_optionals (db : DB) (did lid : Nat) (d : DriverData)
    (now : Int) (db' : DB) (rid : Nat)
    (h : upsert_driver db did lid d now = .ok (db', rid)) :
    ∃ row, get_driver db' did = some row ∧ row.team_id = d.team_id ∧
      row.first_name = d.first_name ∧ row.last_name = d.last_name ∧
      row.club = d.club ∧ row.irating = d.irating ∧
      row.safety_rating = d.safety_rating ∧ row.license_class = d.license_class := by
  unfold upsert_driver at h
  split at h
  · exact absurd h (by simp)
  · split at h
    · exact absurd h (by simp)
    · split at h
      · exact absurd h (by simp)
      · split at h
        case _ old hfind =>
          simp only [] at h
          split at h
          · exact absurd h (by simp)
          · simp only [Except.ok.injEq, Prod.mk.injEq] at h
            obtain ⟨hdb, -⟩ := h
            subst hdb
            have hrow := find?_map_update (fun x : DriverRow => x.driver_id == did)
              (fun r : DriverRow =>
                { r with league_id := lid, team_id := d.team_id,
                         name := d.name.getD "", first_name := d.first_name,
                         last_name := d.last_name, car_numbers := d.car_numbers,
                         primary_number := d.primary_number, club := d.club,
                         club_id := d.club_id, irating := d.irating,
                         safety_rating := d.safety_rating,
                         license_class := d.license_class, url := d.url.getD "",
                         scraped_at := d.scraped_at.getD "", updated_at := now })
              db.drivers (fun a ha => ha)
            rw [hfind] at hrow
            refine ⟨_, hrow, ?_, ?_, ?_, ?_, ?_, ?_, ?_⟩ <;> rfl
        case _ hfind =>
          simp only [] at h
          split at h
          · exact absurd h (by simp)
          · simp only [Except.ok.injEq, Prod.mk.injEq] at h
            obtain ⟨hdb, -⟩ := h
            subst hdb
            exact ⟨{ driver_id := did, league_id := lid, team_id := d.team_id,
                     name := d.name.getD "", first_name := d.first_name,
                     last_name := d.last_name, car_numbers := d.car_numbers,
                     primary_number := d.primary_number, club := d.club,
                     club_id := d.club_id, irating := d.irating,
                     safety_rating := d.safety_rating,
                     license_class := d.license_class, url := d.url.getD "",
                     scraped_at := d.scraped_at.getD "", created_at := now,
                     updated_at := now },
                   find?_append_fresh _ _ _ hfind (by simp), rfl, rfl, rfl, rfl, rfl,
                   rfl, rfl⟩

/-- C1 counterexample: `upsert_series(3714, attrs)` with
`description = "Weekly oval racing"`, then `upsert_series(3714, attrs')`
omitting the description.  `get_series(3714)` first reports the stored
non-null description, and after the second upsert reports `NULL`: the Store
upsert replaced the stored non-null optional attribute with null, so the
claimed merge semantics fail. -/
theorem c1_counterexample_series_description_lost :
    c1Run = .ok (some "Weekly oval racing", none) := by rfl

/-- C1 (amended): Store upserts replace rather than merge.  After any
successful `upsert_series` or `upsert_driver`, each optional column holds
exactly the value supplied by that call — `NULL` when the attribute was
omitted, even if a non-null value was stored before; and concretely, for
every entity kind in {league, team, driver, series, season, race}, a second
upsert omitting a previously-set optional attribute leaves that attribute
`NULL` (any merge behaviour lives in the orchestrator, which pre-merges
before calling the Store). -/
theorem store_upserts_replace_not_merge :
    (∀ (db : DB) (sid lid : Nat) (d : SeriesData) (now : Int) (db' : DB) (rid : Nat),
      upsert_series db sid lid d now = .ok (db', rid) →
      ∃ row, get_series db' sid = some row ∧ row.description = d.description ∧
        row.created_date = d.created_date ∧ row.num_seasons = d.num_seasons) ∧
    (∀ (db : DB) (did lid : Nat) (d : DriverData) (now : Int) (db' : DB) (rid : Nat),
      upsert_driver db did lid d now = .ok (db', rid) →
      ∃ row, get_driver db' did = some row ∧ row.team_id = d.team_id ∧
        row.first_name = d.first_name ∧ row.last_name = d.last_name ∧
        row.club = d.club ∧ row.irating = d.irating ∧
        row.safety_rating = d.safety_rating ∧ row.license_class = d.license_class) ∧
    c1AllKindsRun = .ok (none, none, none, none, none, none) :=
  ⟨upsert_series_optionals, upsert_driver_optionals, by rfl⟩


/-- C1 witness: the general replace-semantics parts of
`store_upserts_replace_not_merge` applied at a concrete successful upsert
(series 3714 of `seededDb`, with description, created_date and num_seasons
all omitted). -/
theorem store_upserts_replace_not_merge_witness :
    (∃ row, get_series c1WitnessDb 3714 = some row ∧ row.description = none ∧
      row.created_date = none ∧ row.num_seasons = none) ∧
    (∃ row, get_driver (okDb (upsert_driver c1WitnessDb 9001 1558
        { name := some "D", url := some "uD", scraped_at := some "t" } 10)) 9001 =
        some row ∧ row.team_id = none ∧ row.first_name = none ∧
        row.last_name = none ∧ row.club = none ∧ row.irating = none ∧
        row.safety_rating = none ∧ row.license_class = none) :=
  ⟨store_upserts_replace_not_merge.1 seededDb 3714 1558
      { name := some "S", url := some "http://test.com/series",
        scraped_at := some "t" } 9 c1WitnessDb 3714 rfl,
   store_upserts_replace_not_merge.2.1 c1WitnessDb 9001 1558
      { name := some "D", url := some "uD", scraped_at := some "t" } 10
      (okDb (upsert_driver c1WitnessDb 9001 1558
        { name := some "D", url := some "uD", scraped_at := some "t" } 10)) 9001 rfl⟩

/-- C2: `should_scrape` cannot return the claimed `(bool, reason_code)` for
races or seasons at all: it selects a `status` column from tables that
`initialize_schema` creates without one, so for every store, id and validity
window the call raises `sqlite3.OperationalError: no such column: status`
instead of returning.  (The claim's terminal-status logic is dead code; note
also that even with a status column, an unknown/NULL status inside the
validity window would fall through to `(False, cache_fresh)`, not to a
`status_needs_refresh` refresh.) -/
theorem should_scrape_race_season_raises (db : DB) (entityId : Nat)
    (validityHours : Option Nat) (now : Int) :
    should_scrape db "race" entityId validityHours now =
      .error (.operationalError "no such column: status") ∧
    should_scrape db "season" entityId validityHours now =
      .error (.operationalError "no such column: status") :=
  ⟨rfl, rfl⟩

/-- C3 counterexample: race 324462 is stored with its completion flag set;
`scrape_race` is called with `force = False` and `cache_max_age_days = 0`
but `has_results = False`.  The claim demands: stored row unchanged and the
skip counted in `skipped_cached`.  Instead the stored race is overwritten
(its completion flag is even reset to `False`) and `skipped_cached` stays
`0`; only the "no fetch" part survives. -/
theorem c3_completed_race_overwritten :
    (Database.is_race_complete c3St.db 324462,
     Database.is_race_complete c3NoResultsRun.db 324462,
     c3NoResultsRun.progress.skippedCached,
     c3NoResultsRun.fetched) = (true, false, 0, []) := by rfl

/-- C3 (amended): for calls with `has_results = True` (the value the season
walker passes for every race that has a results page) and `force = False`,
a stored race with its completion flag set is skipped unconditionally:
no fetch occurs, the store is untouched (not even a ScrapeLog row), and the
skip is counted in `skipped_cached` — regardless of `cache_max_age_days`. -/
theorem scrape_race_skips_completed_race (ex : Extractors) (now : Int)
    (nowIso raceUrl : String) (seasonId scheduleId : Nat) (raceNumber : Int)
    (cacheMaxAgeDays : Option Nat) (st : OrchState)
    (hc : Database.is_race_complete st.db scheduleId = true) :
    scrapeRace ex now nowIso raceUrl seasonId scheduleId raceNumber true
      cacheMaxAgeDays false st =
      { st with progress :=
          { st.progress with skippedCached := st.progress.skippedCached + 1 } } := by
  unfold scrapeRace scrapeRaceBody
  simp [hc]

/-- C3 witness: the amended skip theorem applied to the concrete completed
race 324462 with a zero-day cache window. -/
theorem scrape_race_skips_completed_race_witness :
    Database.is_race_complete c3St.db 324462 = true ∧
    scrapeRace stubExtractors 100 "2025-01-16T00:00:00" "http://test.com/race"
      12345 324462 1 true (some 0) false c3St =
      { c3St with progress :=
          { c3St.progress with skippedCached := c3St.progress.skippedCached + 1 } } :=
  ⟨by rfl,
   scrape_race_skips_completed_race stubExtractors 100 "2025-01-16T00:00:00"
     "http://test.com/race" 12345 324462 1 (some 0) c3St (by rfl)⟩

/-- C4 counterexample: a row whose `last-scraped` is the reserved epoch
sentinel, probed with the finite window `max_age_days = 30000` at
2026-10-12: `is_url_cached` returns TRUE (30000 days reach back past 1970),
refuting "false under any finite max_age_days".  The code never
special-cases the sentinel; it merely relies on the epoch being old. -/
theorem c4_sentinel_cached_for_large_window :
    is_url_cached c4Db "U" "season" (some 30000) 1791763200 = .ok true := by rfl

/-- C4 (amended): for a row whose `last-scraped` equals the reserved epoch
sentinel, `is_url_cached` returns false for every `max_age_days` whose
window does not reach back to the epoch, i.e. whenever
`max_age_days · 86400 ≤ now` (in epoch seconds) — which covers every
realistic finite window. -/
theorem is_url_cached_false_for_epoch_sentinel (db : DB) (etype url : String)
    (maxAge : Nat) (now : Int)
    (hrow : urlScrapedAt db etype url = .ok (some "1970-01-01T00:00:00"))
    (hage : (maxAge : Int) * 86400 ≤ now) :
    is_url_cached db url etype (some maxAge) now = .ok false := by
  unfold is_url_cached
  rw [hrow]
  have hp : parseTimestamp "1970-01-01T00:00:00" = some 0 := rfl
  simp only [Except.bind, bind, hp]
  rw [if_neg (by decide)]
  simp only [pure, Except.pure, Except.ok.injEq, decide_eq_false_iff_not, not_lt]
  omega

/-- C4 witness: the amended theorem applied to the concrete sentinel row of
`c4Db` with a 7-day window at 2026-10-12. -/
theorem is_url_cached_false_for_epoch_sentinel_witness :
    urlScrapedAt c4Db "season" "U" = .ok (some "1970-01-01T00:00:00") ∧
    ((7 : Nat) : Int) * 86400 ≤ 1791763200 ∧
    is_url_cached c4Db "U" "season" (some 7) 1791763200 = .ok false :=
  ⟨rfl, by norm_num,
   is_url_cached_false_for_epoch_sentinel c4Db "season" "U" 7 1791763200 rfl
     (by norm_num)⟩

/-- C5: `scrape_season` ignores `force` at its cache gate — the source tests
only `cache_max_age_days is not None` before skipping, although its own
docstring promises "force: Force re-scrape even if cached" and the CLI
documents `--force` as "Bypass the cache at every level".  Evaluated at the
failing input: a season row one day old, `cache_max_age_days = 7`,
`force = True` — the season page is NOT fetched, the skip is counted as
cached, and nothing is scraped. -/
theorem scrape_season_force_ignored :
    (c5Run.fetched, c5Run.progress.skippedCached, c5Run.progress.seasonsScraped)
      = ([], 1, 0) := by rfl

/-- C6: `upsert_race` ends with `return cursor.lastrowid`, but an
`INSERT .. ON CONFLICT DO UPDATE` that takes the update branch does not
update SQLite's `last_insert_rowid`.  Evaluated at the failing input: insert
schedule 101 (returns surrogate id 1), insert schedule 102 (returns 2), then
upsert schedule 101 again — the call returns 2, the surrogate id of the
unrelated race 102, while the row holding schedule 101 still has surrogate
id 1, contradicting the documented "race_id of the inserted/updated
record". -/
theorem upsert_race_update_returns_stale_lastrowid :
    c6Run = .ok (1, 2, some 1) := by rfl

/-- C7: `_parse_driver_name` normalizes names exactly as specified — comma
form splits on the first comma (left = last, right = first, suffixes kept in
the first name), whitespace form takes the first token as first name and the
remainder as last name, and empty, whitespace-only or missing input yields
two nulls. -/
theorem parse_driver_name_round_trip :
    parseDriverName (some "Doe, John Jr.") = (some "John Jr.", some "Doe") ∧
    parseDriverName (some "John Doe") = (some "John", some "Doe") ∧
    parseDriverName (some "") = (none, none) ∧
    parseDriverName (some "   ") = (none, none) ∧
    parseDriverName none = (none, none) :=
  ⟨rfl, rfl, rfl, rfl, rfl⟩

/-- Single-step reduction of the retry loop on a successful attempt. -/
theorem fetchLoop_ok (b : Nat) (a : Nat → Except String FetchGate.Page)
    (k rem : Nat) (s : List Nat) (page : FetchGate.Page) (ha : a k = .ok page) :
    FetchGate.fetchLoop b a k rem s = (.ok page, s) := by
  rw [FetchGate.fetchLoop, ha]

/-- Single-step reduction of the retry loop on a failed attempt with no
retries left: the last exception is re-raised. -/
theorem fetchLoop_error_zero (b : Nat) (a : Nat → Except String FetchGate.Page)
    (k : Nat) (s : List Nat) (e : String) (ha : a k = .error e) :
    FetchGate.fetchLoop b a k 0 s = (.error e, s) := by
  rw [FetchGate.fetchLoop, ha]

/-- Single-step reduction of the retry loop on a failed attempt with retries
left: sleep the exponential back-off delay and retry. -/
theorem fetchLoop_error_succ (b : Nat) (a : Nat → Except String FetchGate.Page)
    (k r : Nat) (s : List Nat) (e : String) (ha : a k = .error e) :
    FetchGate.fetchLoop b a k (r + 1) s =
      FetchGate.fetchLoop b a (k + 1) r (s ++ [b ^ (k + 1) * b]) := by
  rw [FetchGate.fetchLoop, ha]

/-- The sleeps accumulated by the retry loop extend the accumulator with
exactly the exponential back-off sequence `b^i · b` for consecutive retry
indices `i` starting at `k + 1`, with at most `rem` retries performed. -/
theorem fetchLoop_sleeps (b : Nat) (a : Nat → Except String FetchGate.Page) :
    ∀ (rem k : Nat) (s : List Nat), ∃ r, r ≤ rem ∧
      (FetchGate.fetchLoop b a k rem s).2 =
        s ++ (List.range' (k + 1) r).map (fun i => b ^ i * b) := by
  intro rem
  induction rem with
  | zero =>
    intro k s
    refine ⟨0, Nat.le_refl 0, ?_⟩
    cases ha : a k with
    | ok page => rw [fetchLoop_ok b a k 0 s page ha]; simp
    | error e => rw [fetchLoop_error_zero b a k s e ha]; simp
  | succ r' ih =>
    intro k s
    cases ha : a k with
    | ok page =>
      refine ⟨0, Nat.zero_le _, ?_⟩
      rw [fetchLoop_ok b a k (r' + 1) s page ha]
      simp
    | error e =>
      obtain ⟨r'', hr, heq⟩ := ih (k + 1) (s ++ [b ^ (k + 1) * b])
      refine ⟨r'' + 1, by omega, ?_⟩
      rw [fetchLoop_error_succ b a k r' s e ha, heq, List.range'_succ]
      simp [List.append_assoc]

/-- When every attempt in the window fails, the retry loop returns the
outcome of the final attempt (the re-raised last exception). -/
theorem fetchLoop_allfail (b : Nat) (a : Nat → Except String FetchGate.Page) :
    ∀ (rem k : Nat) (s : List Nat),
      (∀ j, k ≤ j → j ≤ k + rem → (a j).isOk = false) →
      (FetchGate.fetchLoop b a k rem s).1 = a (k + rem) := by
  intro rem
  induction rem with
  | zero =>
    intro k s hf
    have hak := hf k (Nat.le_refl k) (by omega)
    cases ha : a k with
    | ok page => rw [ha] at hak; exact absurd hak (by simp [Except.isOk, Except.toBool])
    | error e =>
      rw [fetchLoop_error_zero b a k s e ha]
      rw [Nat.add_zero, ha]
  | succ r' ih =>
    intro k s hf
    have hak := hf k (Nat.le_refl k) (by omega)
    cases ha : a k with
    | ok page => rw [ha] at hak; exact absurd hak (by simp [Except.isOk, Except.toBool])
    | error e =>
      rw [fetchLoop_error_succ b a k r' s e ha]
      have := ih (k + 1) (s ++ [b ^ (k + 1) * b])
        (fun j h1 h2 => hf j (by omega) (by omega))
      rw [this]
      congr 1
      omega

/-- C8: the fetch layer performs at most `max_retries` retries; the sleep
before retry attempt `k` (1-based) is `backoff_factor ^ k * backoff_factor`
(exponential back-off); and when every attempt up to and including attempt
`max_retries` fails, the call surfaces exactly the final attempt's error —
it never swallows it or fabricates a value. -/
theorem fetch_retry_policy (m b : Nat) (a : Nat → Except String FetchGate.Page) :
    (FetchGate.fetchPage m b a).2.length ≤ m ∧
    (FetchGate.fetchPage m b a).2 =
      (List.range' 1 (FetchGate.fetchPage m b a).2.length).map (fun i => b ^ i * b) ∧
    ((∀ j, j ≤ m → (a j).isOk = false) → (FetchGate.fetchPage m b a).1 = a m) := by
  obtain ⟨r, hr, heq⟩ := fetchLoop_sleeps b a m 0 []
  refine ⟨?_, ?_, ?_⟩
  · unfold FetchGate.fetchPage
    rw [heq]
    simpa using hr
  · unfold FetchGate.fetchPage
    rw [heq]
    simp
  · intro hf
    unfold FetchGate.fetchPage
    have := fetchLoop_allfail b a m 0 [] (fun j h1 h2 => hf j (by omega))
    rwa [Nat.zero_add] at this

/-- C8 witness: the policy theorem applied with `max_retries = 2`,
`backoff_factor = 3` and an oracle whose every attempt fails: two retries
are performed, sleeping 9 then 27 seconds, and the final error surfaces. -/
theorem fetch_retry_policy_witness :
    (∀ j, j ≤ 2 → (c8Attempts j).isOk = false) ∧
    (FetchGate.fetchPage 2 3 c8Attempts).1 = c8Attempts 2 ∧
    FetchGate.fetchPage 2 3 c8Attempts = (.error "ConnectionError", [9, 27]) :=
  ⟨fun j hj => rfl, (fetch_retry_policy 2 3 c8Attempts).2.2 (fun j hj => rfl), rfl⟩

/-- C9 counterexample: in the concrete drift scenario (league with two
series, fetching the first series page fails), exactly one series error is
recorded — yet the schema_alerts table stays empty: no code path in the
repository ever inserts a SchemaAlert row, so the claimed "appends a
SchemaAlert row" is false. -/
theorem c9_no_schema_alert_row :
    (c9State.map fun s => (s.progress.errors.length, s.db.schemaAlerts.length))
      = some (1, 0) := by rfl

/-- C9 (amended): when scraping one series fails, the orchestrator appends a
ScrapeLog row with outcome `failed`, records the error in the progress
snapshot, leaves schema_alerts untouched (no SchemaAlert writer exists), and
still processes the remaining sibling series; the exception does not
propagate out of `scrape_league` (concretely: the run returns `ok`, the
sibling's success is logged, and one series was still scraped). -/
theorem series_failure_is_local :
    (∀ (ex : Extractors) (now : Int) (nowIso url : String) (leagueId : Nat)
        (depth : String) (filters : Filters) (cacheMaxAgeDays : Option Nat)
        (force : Bool) (st : OrchState) (msg : String),
      ex.series url = .error msg → url ≠ "" →
      (scrapeSeries ex now nowIso url leagueId depth filters cacheMaxAgeDays
          force st).progress.errors =
        st.progress.errors ++ [⟨"series", url, msg⟩] ∧
      (scrapeSeries ex now nowIso url leagueId depth filters cacheMaxAgeDays
          force st).db.scrapeLog =
        st.db.scrapeLog ++
          [{ log_id := st.db.nextLogId,
             entity_type := "series",
             entity_url := url,
             status := "failed",
             error_message := some msg,
             timestamp := now }] ∧
      (scrapeSeries ex now nowIso url leagueId depth filters cacheMaxAgeDays
          force st).db.schemaAlerts = st.db.schemaAlerts ∧
      (scrapeSeries ex now nowIso url leagueId depth filters cacheMaxAgeDays
          force st).progress.seriesScraped = st.progress.seriesScraped ∧
      (scrapeSeries ex now nowIso url leagueId depth filters cacheMaxAgeDays
          force st).fetched = st.fetched ++ [url]) ∧
    (c9State.map fun s =>
      (s.progress.seriesScraped, s.progress.errors.length, s.db.schemaAlerts,
       s.db.scrapeLog.map fun l => (l.entity_type, l.status)))
      = some (1, 1, [],
        [("league", "success"), ("series", "failed"), ("series", "success")]) := by
  constructor
  · intro ex now nowIso url leagueId depth filters cacheMaxAgeDays force st msg
      hser hurl
    simp only [scrapeSeries, scrapeSeriesBody, recordFetch, hser]
    simp [doLog, addError, Database.log_scrape, hurl, validEntityTypes]
  · rfl

/-- C9 witness: the general error-path facts applied to the concrete drift
scenario (series url `uS1` of `c9Extractors`, starting from an empty
store). -/
theorem series_failure_is_local_witness :
    c9Extractors.series "uS1" =
      .error "Schema change detected for series: missing patterns" ∧
    (scrapeSeries c9Extractors 100 "2026-10-12T00:00:00" "uS1" 1558 "series" {}
        (some 7) false { db := DB.empty }).progress.errors =
      [⟨"series", "uS1", "Schema change detected for series: missing patterns"⟩] ∧
    (scrapeSeries c9Extractors 100 "2026-10-12T00:00:00" "uS1" 1558 "series" {}
        (some 7) false { db := DB.empty }).db.schemaAlerts = [] :=
  ⟨rfl,
   by
    have h := (series_failure_is_local.1 c9Extractors 100 "2026-10-12T00:00:00"
      "uS1" 1558 "series" {} (some 7) false { db := DB.empty }
      "Schema change detected for series: missing patterns" rfl (by decide))
    simpa using h.1,
   by
    have h := (series_failure_is_local.1 c9Extractors 100 "2026-10-12T00:00:00"
      "uS1" 1558 "series" {} (some 7) false { db := DB.empty }
      "Schema change detected for series: missing patterns" rfl (by decide))
    simpa using h.2.2.1⟩

/-- C10: a parsed race-result row with no driver id is stored as a silent
no-op — `_store_race_result` returns with the state untouched (no
race_results row, no driver row, no progress error, no ScrapeLog entry) —
while the enclosing race is still persisted, counted in `races_scraped`,
and logged with outcome `success` (shown concretely: the race row exists,
`races_scraped = 1`, the only log entry is a race success, and both the
drivers and race_results tables stay empty). -/
theorem missing_driver_id_result_is_silent_noop :
    (∀ (st : OrchState) (raceId : Nat) (result : RaceResultExtract)
        (seasonId : Nat) (now : Int) (nowIso : String),
      result.driver_id = none →
      storeRaceResult st raceId result seasonId now nowIso = st) ∧
    (c10Run.db.raceResults, c10Run.db.drivers, c10Run.progress.errors,
     c10Run.progress.racesScraped,
     c10Run.db.scrapeLog.map fun l => (l.entity_type, l.status),
     (get_race c10Run.db 324462).isSome)
      = ([], [], [], 1, [("race", "success")], true) := by
  constructor
  · intro st raceId result seasonId now nowIso h
    simp [storeRaceResult, h]
  · rfl

/-- C10 witness: the no-op part applied to the concrete anchor-less result
row of the C10 scenario. -/
theorem missing_driver_id_result_is_silent_noop_witness :
    ({ driver_name := some "John Doe", finish_position := some 1 } :
        RaceResultExtract).driver_id = none ∧
    storeRaceResult { db := seededDb } 1
      { driver_name := some "John Doe", finish_position := some 1 } 12345 100 "t"
      = { db := seededDb } :=
  ⟨rfl,
   missing_driver_id_result_is_silent_noop.1 { db := seededDb } 1
     { driver_name := some "John Doe", finish_position := some 1 } 12345 100 "t"
     rfl⟩
